import Mathlib

/-!
Verification development for the instruction-level core of a Game Boy (SM83)
emulator.  The definitions below are a shallow embedding of the Rust sources:
`src/utils/bytes.rs`, `src/gameboy/memory.rs`, and the canonical CPU snapshot
`src/gameboy/cpu/{registers,instruction_variables,instructions,cpu_core}.rs`.

Machine integers are modelled as `Nat` with explicit reductions mod `2^8` /
`2^16` at the points where the Rust types truncate.  Rust's plain `+`/`-` on
`u16` (which overflow-panics under `cfg(debug_assertions)`, the mode `cargo
test` uses) is modelled by `checkedAdd16`/`checkedSub16` returning an error;
the source's deliberate `wrapping_add`/`wrapping_sub`/`wrapping_add_signed`
calls are modelled by total wrapping operations.  Rust panics (`panic!`,
`todo!`, arithmetic overflow, the `assert!` in bit helpers) are modelled as
`Except.error` values of type `Fault`.
-/

namespace GB

/-- Panic/abort outcomes of the Rust code, one constructor per distinct
panic site family. -/
inductive Fault where
  | echoRamPanic
  | invalidAddressPanic
  | overflowPanic
  | invalidConvPanic
  | unknownInstructionPanic
  | todoPanic
  deriving DecidableEq, Repr

/-! ## utils/bytes.rs -/

/-- `get_hi`: `(n >> 8) as u8`. -/
def get_hi (n : Nat) : Nat := n / 256 % 256

/-- `get_lo`: `n as u8`. -/
def get_lo (n : Nat) : Nat := n % 256

/-- `set_hi`: `(n & 0x00FF) | (hi << 8)` (with `hi : u8`). -/
def set_hi (n hi : Nat) : Nat := n % 256 + hi % 256 * 256

/-- `set_lo`: `(n & 0xFF00) | lo` (with `lo : u8`). -/
def set_lo (n lo : Nat) : Nat := n / 256 % 256 * 256 + lo % 256

/-- `combine`: `(hi << 8) | lo` for `hi lo : u8`. -/
def combine (hi lo : Nat) : Nat := hi % 256 * 256 + lo % 256

/-- `split`: `(get_hi n, get_lo n)`. -/
def split (n : Nat) : Nat × Nat := (get_hi n, get_lo n)

/-- `get_bit_u16`: bit `i` of `n`, indexed from the least significant bit. -/
def get_bit_u16 (n i : Nat) : Nat := n / 2 ^ i % 2

/-- `get_bit_u8`: bit `i` of `n`, indexed from the least significant bit. -/
def get_bit_u8 (n i : Nat) : Nat := n / 2 ^ i % 2

/-- `set_bit_u16`: set (`v = 1`) or clear (otherwise `v = 0`) bit `i` of `n`,
written with `|=` / `&= !` translated to arithmetic on the bit. -/
def set_bit_u16 (n i v : Nat) : Nat :=
  if v = 1 then (if n / 2 ^ i % 2 = 1 then n else n + 2 ^ i)
  else (if n / 2 ^ i % 2 = 1 then n - 2 ^ i else n)

/-! ## Wrapping / checked / overflowing machine arithmetic -/

/-- `u16::wrapping_add`. -/
def wrapping_add16 (a b : Nat) : Nat := (a + b) % 65536

/-- `u16::wrapping_sub` (for `b ≤ 65536`). -/
def wrapping_sub16 (a b : Nat) : Nat := (a % 65536 + 65536 - b % 65536) % 65536

/-- `u8::wrapping_add`. -/
def wrapping_add8 (a b : Nat) : Nat := (a + b) % 256

/-- `u8::wrapping_sub`. -/
def wrapping_sub8 (a b : Nat) : Nat := (a % 256 + 256 - b % 256) % 256

/-- `u8::overflowing_add`: wrapped result and carry-out. -/
def overflowing_add8 (a b : Nat) : Nat × Bool :=
  ((a % 256 + b % 256) % 256, decide (256 ≤ a % 256 + b % 256))

/-- `u8::overflowing_sub`: wrapped result and borrow-out. -/
def overflowing_sub8 (a b : Nat) : Nat × Bool :=
  ((a % 256 + 256 - b % 256) % 256, decide (a % 256 < b % 256))

/-- `u16::overflowing_add`. -/
def overflowing_add16 (a b : Nat) : Nat × Bool :=
  ((a % 65536 + b % 65536) % 65536, decide (65536 ≤ a % 65536 + b % 65536))

/-- Sign extension `byte as i8 as i16` of a `u8`. -/
def signExt8 (b : Nat) : Int :=
  if b % 256 < 128 then (b % 256 : Int) else (b % 256 : Int) - 256

/-- `u16::wrapping_add_signed` with an `i16` offset coming from `signExt8`. -/
def wrapping_add_signed16 (a : Nat) (b : Nat) : Nat :=
  (a % 65536 + (if b % 256 < 128 then b % 256 else b % 256 + 65536 - 256)) % 65536

/-- `u16::overflowing_add_signed`: wrapped result and overflow flag. -/
def overflowing_add_signed16 (a : Nat) (e : Int) : Nat × Bool :=
  ((((a % 65536 : Int) + e) % 65536).toNat, decide ((a % 65536 : Int) + e < 0 ∨ 65535 < (a % 65536 : Int) + e))

/-- Rust `u16` `+` under `debug_assertions`: panics on overflow. -/
def checkedAdd16 (a b : Nat) : Except Fault Nat :=
  if a + b ≤ 65535 then .ok (a + b) else .error .overflowPanic

/-- Rust `u16` `-` under `debug_assertions`: panics on underflow. -/
def checkedSub16 (a b : Nat) : Except Fault Nat :=
  if b ≤ a then .ok (a - b) else .error .overflowPanic

/-! ## cpu/instruction_variables.rs -/

/-- Instruction-encoding 8-bit register selector. -/
inductive R8 where
  | B | C | D | E | H | L | A
  deriving DecidableEq, Repr

/-- `impl From<u8> for R8` (panics on 6 and on values ≥ 8). -/
def R8.fromNat (r : Nat) : Except Fault R8 :=
  match r with
  | 0 => .ok .B
  | 1 => .ok .C
  | 2 => .ok .D
  | 3 => .ok .E
  | 4 => .ok .H
  | 5 => .ok .L
  | 7 => .ok .A
  | _ => .error .invalidConvPanic

/-- Instruction-encoding 16-bit register selector. -/
inductive R16 where
  | BC | DE | HL | SP
  deriving DecidableEq, Repr

/-- `impl From<u8> for R16`. -/
def R16.fromNat (r : Nat) : Except Fault R16 :=
  match r with
  | 0 => .ok .BC
  | 1 => .ok .DE
  | 2 => .ok .HL
  | 3 => .ok .SP
  | _ => .error .invalidConvPanic

/-- Stack-instruction 16-bit register selector (AF replaces SP). -/
inductive R16STK where
  | BC | DE | HL | AF
  deriving DecidableEq, Repr

/-- `impl From<u8> for R16STK`. -/
def R16STK.fromNat (r : Nat) : Except Fault R16STK :=
  match r with
  | 0 => .ok .BC
  | 1 => .ok .DE
  | 2 => .ok .HL
  | 3 => .ok .AF
  | _ => .error .invalidConvPanic

/-- Memory-indirect 16-bit register selector with HL auto-inc/dec forms. -/
inductive R16MEM where
  | BC | DE | Hli | Hld
  deriving DecidableEq, Repr

/-- `impl From<u8> for R16MEM`. -/
def R16MEM.fromNat (r : Nat) : Except Fault R16MEM :=
  match r with
  | 0 => .ok .BC
  | 1 => .ok .DE
  | 2 => .ok .Hli
  | 3 => .ok .Hld
  | _ => .error .invalidConvPanic

/-- 3-bit literal (bit index). -/
inductive B3 where
  | Zero | One | Two | Three | Four | Five | Six | Seven
  deriving DecidableEq, Repr

/-- `impl From<u8> for B3`. -/
def B3.fromNat (b : Nat) : Except Fault B3 :=
  match b with
  | 0 => .ok .Zero
  | 1 => .ok .One
  | 2 => .ok .Two
  | 3 => .ok .Three
  | 4 => .ok .Four
  | 5 => .ok .Five
  | 6 => .ok .Six
  | 7 => .ok .Seven
  | _ => .error .invalidConvPanic

/-- Branch condition. -/
inductive Cond where
  | Zero | NotZero | Carry | NotCarry
  deriving DecidableEq, Repr

/-- `impl From<u8> for Cond`. -/
def Cond.fromNat (c : Nat) : Except Fault Cond :=
  match c with
  | 0 => .ok .NotZero
  | 1 => .ok .Zero
  | 2 => .ok .NotCarry
  | 3 => .ok .Carry
  | _ => .error .invalidConvPanic

/-- RST target selector; its Rust discriminant values are the vectors. -/
inductive TGT3 where
  | Zero | One | Two | Three | Four | Five | Six | Seven
  deriving DecidableEq, Repr

/-- `impl From<u8> for TGT3`. -/
def TGT3.fromNat (t : Nat) : Except Fault TGT3 :=
  match t with
  | 0 => .ok .Zero
  | 1 => .ok .One
  | 2 => .ok .Two
  | 3 => .ok .Three
  | 4 => .ok .Four
  | 5 => .ok .Five
  | 6 => .ok .Six
  | 7 => .ok .Seven
  | _ => .error .invalidConvPanic

/-- `tgt as u16`: the Rust enum discriminants `0x0, 0x8, …, 0x38`. -/
def TGT3.val : TGT3 → Nat
  | .Zero => 0x0
  | .One => 0x8
  | .Two => 0x10
  | .Three => 0x18
  | .Four => 0x20
  | .Five => 0x28
  | .Six => 0x30
  | .Seven => 0x38

/-! ## cpu/registers.rs -/

/-- Register-file register-pair selector. -/
inductive Register16 where
  | AF | BC | DE | HL | SP | PC
  deriving DecidableEq, Repr

/-- `impl From<R16> for Register16`. -/
def Register16.fromR16 : R16 → Register16
  | .BC => .BC
  | .DE => .DE
  | .HL => .HL
  | .SP => .SP

/-- `impl From<R16MEM> for Register16` (both HL forms map to HL). -/
def Register16.fromR16MEM : R16MEM → Register16
  | .BC => .BC
  | .DE => .DE
  | .Hli => .HL
  | .Hld => .HL

/-- Modelled from the spec: the `From<R16STK> for Register16` conversion used
by `PopR16Stk`/`PushR16Stk` is absent from the source tree (only its callers
exist); per the spec, the stack selector encoding "substitutes AF for SP",
so BC, DE, HL map to themselves and AF to AF. -/
def Register16.fromR16STK : R16STK → Register16
  | .BC => .BC
  | .DE => .DE
  | .HL => .HL
  | .AF => .AF

/-- Register-file 8-bit register selector. -/
inductive Register8 where
  | A | F | B | C | D | E | H | L
  deriving DecidableEq, Repr

/-- `impl From<R8> for Register8` (all seven variants are mapped; the Rust
wildcard panic arm is unreachable). -/
def Register8.fromR8 : R8 → Register8
  | .A => .A
  | .B => .B
  | .C => .C
  | .D => .D
  | .E => .E
  | .H => .H
  | .L => .L

/-- CPU flag selector. -/
inductive Flag where
  | Z | N | H | C
  deriving DecidableEq, Repr

/-- The register file: six 16-bit pairs (`f` is the low byte of `af`). -/
structure Registers where
  af : Nat
  bc : Nat
  de : Nat
  hl : Nat
  sp : Nat
  pc : Nat
  deriving DecidableEq, Repr

/-- `Registers::new`. -/
def Registers.new (af bc de hl sp pc : Nat) : Registers :=
  ⟨af, bc, de, hl, sp, pc⟩

/-- `Registers::read_16` (`% 65536` encodes the `u16` return type). -/
def Registers.read_16 (r : Registers) : Register16 → Nat
  | .AF => r.af % 65536
  | .BC => r.bc % 65536
  | .DE => r.de % 65536
  | .HL => r.hl % 65536
  | .SP => r.sp % 65536
  | .PC => r.pc % 65536

/-- `Registers::write_16` (`% 65536` encodes the `u16` argument type). -/
def Registers.write_16 (r : Registers) (reg : Register16) (v : Nat) : Registers :=
  match reg with
  | .AF => { r with af := v % 65536 }
  | .BC => { r with bc := v % 65536 }
  | .DE => { r with de := v % 65536 }
  | .HL => { r with hl := v % 65536 }
  | .SP => { r with sp := v % 65536 }
  | .PC => { r with pc := v % 65536 }

/-- `Registers::read_8`. -/
def Registers.read_8 (r : Registers) : Register8 → Nat
  | .A => get_hi r.af
  | .F => get_lo r.af
  | .B => get_hi r.bc
  | .C => get_lo r.bc
  | .D => get_hi r.de
  | .E => get_lo r.de
  | .H => get_hi r.hl
  | .L => get_lo r.hl

/-- `Registers::write_8`. -/
def Registers.write_8 (r : Registers) (reg : Register8) (v : Nat) : Registers :=
  match reg with
  | .A => { r with af := set_hi r.af v }
  | .F => { r with af := set_lo r.af v }
  | .B => { r with bc := set_hi r.bc v }
  | .C => { r with bc := set_lo r.bc v }
  | .D => { r with de := set_hi r.de v }
  | .E => { r with de := set_lo r.de v }
  | .H => { r with hl := set_hi r.hl v }
  | .L => { r with hl := set_lo r.hl v }

/-- `Registers::read_flag`: Z, N, H, C read bits 0, 1, 2, 3 of `af`. -/
def Registers.read_flag (r : Registers) : Flag → Nat
  | .Z => get_bit_u16 r.af 0
  | .N => get_bit_u16 r.af 1
  | .H => get_bit_u16 r.af 2
  | .C => get_bit_u16 r.af 3

/-- `Registers::write_flag`: Z, N, H, C write bits 0, 1, 2, 3 of `af`. -/
def Registers.write_flag (r : Registers) (f : Flag) (v : Nat) : Registers :=
  match f with
  | .Z => { r with af := set_bit_u16 r.af 0 v }
  | .N => { r with af := set_bit_u16 r.af 1 v }
  | .H => { r with af := set_bit_u16 r.af 2 v }
  | .C => { r with af := set_bit_u16 r.af 3 v }

/-! ## gameboy/memory.rs

The eleven per-segment arrays are fields holding offset-indexed byte stores;
`read_byte`/`write_byte` reproduce the source's ordered range match, with the
echo-RAM arm and the final `Invalid adress` arm as the two panic outcomes.
`% 256` on reads encodes the `u8` element type. -/

/-- The memory bus: one offset-indexed store per segment. -/
structure Memory where
  rom_00 : Nat → Nat
  rom_nn : Nat → Nat
  vram : Nat → Nat
  exram : Nat → Nat
  wram_0 : Nat → Nat
  wram_nn : Nat → Nat
  echo : Nat → Nat
  oam : Nat → Nat
  io : Nat → Nat
  hram : Nat → Nat
  ie : Nat → Nat

/-- `Memory::new`: all segments zeroed. -/
def Memory.new : Memory :=
  ⟨fun _ => 0, fun _ => 0, fun _ => 0, fun _ => 0, fun _ => 0, fun _ => 0,
   fun _ => 0, fun _ => 0, fun _ => 0, fun _ => 0, fun _ => 0⟩

/-- `Memory::read_byte`: ordered segment-range dispatch. -/
def Memory.read_byte (m : Memory) (adress : Nat) : Except Fault Nat :=
  if adress ≤ 0x3FFF then .ok (m.rom_00 (adress - 0x0000) % 256)
  else if adress ≤ 0x7FFF then .ok (m.rom_nn (adress - 0x4000) % 256)
  else if adress ≤ 0x9FFF then .ok (m.vram (adress - 0x8000) % 256)
  else if adress ≤ 0xBFFF then .ok (m.exram (adress - 0xA000) % 256)
  else if adress ≤ 0xCFFF then .ok (m.wram_0 (adress - 0xC000) % 256)
  else if adress ≤ 0xDFFF then .ok (m.wram_nn (adress - 0xD000) % 256)
  else if adress ≤ 0xFDFF then .error .echoRamPanic
  else if adress ≤ 0xFE9F then .ok (m.oam (adress - 0xFE00) % 256)
  else if 0xFF00 ≤ adress ∧ adress ≤ 0xFF7F then .ok (m.io (adress - 0xFF00) % 256)
  else if 0xFF80 ≤ adress ∧ adress ≤ 0xFFFE then .ok (m.hram (adress - 0xFF80) % 256)
  else if adress = 0xFFFF then .ok (m.ie (adress - 0xFFFF) % 256)
  else .error .invalidAddressPanic

/-- `Memory::write_byte`: same dispatch, updating one segment store
(`% 256` encodes the `u8` value type). -/
def Memory.write_byte (m : Memory) (adress v : Nat) : Except Fault Memory :=
  if adress ≤ 0x3FFF then .ok { m with rom_00 := Function.update m.rom_00 (adress - 0x0000) (v % 256) }
  else if adress ≤ 0x7FFF then .ok { m with rom_nn := Function.update m.rom_nn (adress - 0x4000) (v % 256) }
  else if adress ≤ 0x9FFF then .ok { m with vram := Function.update m.vram (adress - 0x8000) (v % 256) }
  else if adress ≤ 0xBFFF then .ok { m with exram := Function.update m.exram (adress - 0xA000) (v % 256) }
  else if adress ≤ 0xCFFF then .ok { m with wram_0 := Function.update m.wram_0 (adress - 0xC000) (v % 256) }
  else if adress ≤ 0xDFFF then .ok { m with wram_nn := Function.update m.wram_nn (adress - 0xD000) (v % 256) }
  else if adress ≤ 0xFDFF then .error .echoRamPanic
  else if adress ≤ 0xFE9F then .ok { m with oam := Function.update m.oam (adress - 0xFE00) (v % 256) }
  else if 0xFF00 ≤ adress ∧ adress ≤ 0xFF7F then .ok { m with io := Function.update m.io (adress - 0xFF00) (v % 256) }
  else if 0xFF80 ≤ adress ∧ adress ≤ 0xFFFE then .ok { m with hram := Function.update m.hram (adress - 0xFF80) (v % 256) }
  else if adress = 0xFFFF then .ok { m with ie := Function.update m.ie (adress - 0xFFFF) (v % 256) }
  else .error .invalidAddressPanic

/-- `Memory::read_word`: low byte at `adress`, high byte at `adress + 1`
(plain `u16` add), combined little-endian. -/
def Memory.read_word (m : Memory) (adress : Nat) : Except Fault Nat := do
  let lo ← m.read_byte adress
  let a1 ← checkedAdd16 adress 1
  let hi ← m.read_byte a1
  pure (combine hi lo)

/-- `Memory::write_word`: low byte to `adress`, high byte to `adress + 1`. -/
def Memory.write_word (m : Memory) (adress v : Nat) : Except Fault Memory := do
  let (hi, lo) := split v
  let m1 ← m.write_byte adress lo
  let a1 ← checkedAdd16 adress 1
  m1.write_byte a1 hi

/-! ## cpu/instructions.rs : the Instruction enum -/

/-- The `Instruction` enum: one variant per opcode family, carrying the
encoded operands. -/
inductive Instruction where
  | Nop
  | LdR16Imm16 (reg : R16) (v : Nat)
  | LdR16MemA (reg : R16MEM)
  | LdAR16Mem (reg : R16MEM)
  | LdMemImm16SP (adress : Nat)
  | IncR16 (reg : R16)
  | DecR16 (reg : R16)
  | AddHlR16 (reg : R16)
  | IncR8 (reg : R8)
  | IncMemHl
  | DecR8 (reg : R8)
  | DecMemHl
  | LdR8Imm8 (reg : R8) (v : Nat)
  | LdMemHlImm8 (v : Nat)
  | Rlca
  | Rrca
  | Rla
  | Rra
  | Daa
  | Cpl
  | Scf
  | Ccf
  | JrImm8 (b : Nat)
  | JrCondImm8 (c : Cond) (b : Nat)
  | Stop
  | LdR8R8 (tgt src : R8)
  | LdR8MemHl (reg : R8)
  | LdMemHlR8 (reg : R8)
  | Halt
  | AddAR8 (reg : R8)
  | AddAMemHl
  | AdcAR8 (reg : R8)
  | AdcAMemHl
  | SubAR8 (reg : R8)
  | SubAMemHl
  | SbcAR8 (reg : R8)
  | SbcAMemHl
  | AndAR8 (reg : R8)
  | AndAMemHl
  | XorAR8 (reg : R8)
  | XorAMemHl
  | OrAR8 (reg : R8)
  | OrAMemHl
  | CpAR8 (reg : R8)
  | CpAMemHl
  | AddAImm8 (v : Nat)
  | AdcAImm8 (v : Nat)
  | SubAImm8 (v : Nat)
  | SbcAImm8 (v : Nat)
  | AndAImm8 (v : Nat)
  | XorAImm8 (v : Nat)
  | OrAImm8 (v : Nat)
  | CpAImm8 (v : Nat)
  | RetCond (c : Cond)
  | Ret
  | Reti
  | JpCondImm16 (c : Cond) (v : Nat)
  | JpImm16 (v : Nat)
  | JpHl
  | CallCondImm16 (c : Cond) (v : Nat)
  | CallImm16 (v : Nat)
  | RstTgt3 (t : TGT3)
  | PopR16Stk (reg : R16STK)
  | PushR16Stk (reg : R16STK)
  | LdhMemCA
  | LdhMemImm8A (v : Nat)
  | LdMemImm16A (v : Nat)
  | LdAMemC
  | LdhAMemImm8 (v : Nat)
  | LdAMemImm16 (v : Nat)
  | AddSpImm8 (b : Nat)
  | LdHlSpImm8 (b : Nat)
  | LdSpHl
  | Di
  | Ei
  | RlcMemHl
  | RlcR8 (reg : R8)
  | RrcMemHl
  | RrcR8 (reg : R8)
  | RlMemHl
  | RlR8 (reg : R8)
  | RrMemHl
  | RrR8 (reg : R8)
  | SlaMemHl
  | SlaR8 (reg : R8)
  | SraMemHl
  | SraR8 (reg : R8)
  | SwapMemHl
  | SwapR8 (reg : R8)
  | SrlMemHl
  | SrlR8 (reg : R8)
  | BitB3MemHl (b : B3)
  | BitB3R8 (b : B3) (reg : R8)
  | ResB3MemHl (b : B3)
  | ResB3R8 (b : B3) (reg : R8)
  | SetB3MemHl (b : B3)
  | SetB3R8 (b : B3) (reg : R8)
  deriving Repr

/-! ## cpu/instructions.rs : carry helpers -/

/-- `check_half_carry_add_u8`: `((l & 0xF) + (r & 0xF)) & 0x10 != 0`. -/
def check_half_carry_add_u8 (l r : Nat) : Bool :=
  (l % 16 + r % 16) / 16 % 2 != 0

/-- `check_half_carry_add_u16_bit11`: `((l & 0xFFF) + (r & 0xFFF)) & 0x1000 != 0`. -/
def check_half_carry_add_u16_bit11 (l r : Nat) : Bool :=
  (l % 4096 + r % 4096) / 4096 % 2 != 0

/-- `check_half_carry_add_u16_bit7`: `((l & 0xFF) + (r & 0xFF)) & 0x100 != 0`. -/
def check_half_carry_add_u16_bit7 (l r : Nat) : Bool :=
  (l % 256 + r % 256) / 256 % 2 != 0

/-- `check_half_borrow_sub_u8`: `(l & 0xF) < (r & 0xF)`. -/
def check_half_borrow_sub_u8 (l r : Nat) : Bool :=
  l % 16 < r % 16

/-- `check_half_borrow_sub_u16`: `(l & 0xFFF) < (r & 0xFFF)`. -/
def check_half_borrow_sub_u16 (l r : Nat) : Bool :=
  l % 4096 < r % 4096

/-! ## cpu/instructions.rs : stack helpers -/

/-- `stack_push_16`: write the word at `sp - 2`, then set SP to `sp - 2`
(plain `u16` subtraction). -/
def stack_push_16 (r : Registers) (m : Memory) (value : Nat) :
    Except Fault (Registers × Memory) := do
  let sp := r.read_16 .SP
  let a ← checkedSub16 sp 2
  let m ← m.write_word a value
  pure (r.write_16 .SP a, m)

/-- `stack_pop_16`: read the word at SP, then set SP to `sp + 2`
(plain `u16` addition). -/
def stack_pop_16 (r : Registers) (m : Memory) :
    Except Fault (Nat × Registers) := do
  let sp := r.read_16 .SP
  let value ← m.read_word sp
  let sp' ← checkedAdd16 sp 2
  pure (value, r.write_16 .SP sp')

/-- `stack_push_8`: write the byte at `sp - 1`, then set SP to `sp - 1`. -/
def stack_push_8 (r : Registers) (m : Memory) (value : Nat) :
    Except Fault (Registers × Memory) := do
  let sp := r.read_16 .SP
  let a ← checkedSub16 sp 1
  let m ← m.write_byte a value
  pure (r.write_16 .SP a, m)

/-- `stack_pop_8`: read the byte at SP, then set SP to `sp + 1`. -/
def stack_pop_8 (r : Registers) (m : Memory) :
    Except Fault (Nat × Registers) := do
  let sp := r.read_16 .SP
  let value ← m.read_byte sp
  let sp' ← checkedAdd16 sp 1
  pure (value, r.write_16 .SP sp')

/-- Bool-to-flag-bit helper for the recurring `if cond { 1 } else { 0 }`. -/
def bit01 (b : Bool) : Nat := if b then 1 else 0

/-! ## cpu/instructions.rs : Instruction::execute

`execute` consumes the instruction and returns the machine-cycle count, the
new register file, and the new memory.  `todo!()` bodies are
`Fault.todoPanic` errors. -/

/-- `Instruction::execute`. -/
def Instruction.execute (i : Instruction) (r : Registers) (m : Memory) :
    Except Fault (Nat × Registers × Memory) :=
  match i with
  | .Nop => pure (1, r, m)
  | .LdR16Imm16 reg v =>
      pure (3, r.write_16 (Register16.fromR16 reg) v, m)
  | .LdR16MemA reg => do
      let value := r.read_8 .A
      let address := r.read_16 (Register16.fromR16MEM reg)
      let m ← m.write_byte address value
      pure (2, r, m)
  | .LdAR16Mem reg => do
      let address := r.read_16 (Register16.fromR16MEM reg)
      let value ← m.read_byte address
      pure (2, r.write_8 .A value, m)
  | .LdMemImm16SP adress => do
      let value := r.read_16 .SP
      let m ← m.write_word adress value
      pure (5, r, m)
  | .IncR16 reg =>
      let rr := Register16.fromR16 reg
      let value := r.read_16 rr
      pure (2, r.write_16 rr (wrapping_add16 value 1), m)
  | .DecR16 reg =>
      let rr := Register16.fromR16 reg
      let value := r.read_16 rr
      pure (2, r.write_16 rr (wrapping_sub16 value 1), m)
  | .AddHlR16 reg =>
      let value := r.read_16 (Register16.fromR16 reg)
      let hl := r.read_16 .HL
      let (result, overflow) := overflowing_add16 hl value
      let r := r.write_16 .HL result
      let r := r.write_flag .N 0
      let r := r.write_flag .H (bit01 (check_half_carry_add_u16_bit11 hl value))
      let r := r.write_flag .C (bit01 overflow)
      pure (2, r, m)
  | .IncMemHl => do
      let address := r.read_16 .HL
      let value ← m.read_byte address
      let result := wrapping_add8 value 1
      let m ← m.write_byte address result
      let r := r.write_flag .Z (bit01 (result == 0))
      let r := r.write_flag .N 0
      let r := r.write_flag .H (bit01 (check_half_carry_add_u8 value 1))
      pure (3, r, m)
  | .IncR8 reg =>
      let rr := Register8.fromR8 reg
      let value := r.read_8 rr
      let result := wrapping_add8 value 1
      let r := r.write_8 rr result
      let r := r.write_flag .Z (bit01 (result == 0))
      let r := r.write_flag .N 0
      let r := r.write_flag .H (bit01 (check_half_carry_add_u8 value 1))
      pure (1, r, m)
  | .DecMemHl => do
      let address := r.read_16 .HL
      let value ← m.read_byte address
      let result := wrapping_sub8 value 1
      let m ← m.write_byte address result
      let r := r.write_flag .Z (bit01 (result == 0))
      let r := r.write_flag .N 1
      let r := r.write_flag .H (bit01 (check_half_borrow_sub_u8 value 1))
      pure (3, r, m)
  | .DecR8 reg =>
      let rr := Register8.fromR8 reg
      let value := r.read_8 rr
      let result := wrapping_sub8 value 1
      let r := r.write_8 rr result
      let r := r.write_flag .Z (bit01 (result == 0))
      let r := r.write_flag .N 1
      let r := r.write_flag .H (bit01 (check_half_borrow_sub_u8 value 1))
      pure (1, r, m)
  | .LdMemHlImm8 value => do
      let address := r.read_16 .HL
      let m ← m.write_byte address value
      pure (3, r, m)
  | .LdR8Imm8 reg value =>
      pure (2, r.write_8 (Register8.fromR8 reg) value, m)
  | .Rlca =>
      let value := r.read_8 .A
      let carry := get_bit_u8 value 7
      let result := value * 2 % 256 + carry
      let r := r.write_8 .A result
      let r := r.write_flag .Z 0
      let r := r.write_flag .N 0
      let r := r.write_flag .H 0
      let r := r.write_flag .C carry
      pure (1, r, m)
  | .Rrca =>
      let value := r.read_8 .A
      let carry := get_bit_u8 value 0
      let result := value / 2 + carry * 128
      let r := r.write_8 .A result
      let r := r.write_flag .Z 0
      let r := r.write_flag .N 0
      let r := r.write_flag .H 0
      let r := r.write_flag .C carry
      pure (1, r, m)
  | .Rla =>
      let value := r.read_8 .A
      let carry := r.read_flag .C
      let result := value * 2 % 256 + carry
      let new_carry := get_bit_u8 value 7
      let r := r.write_8 .A result
      let r := r.write_flag .Z 0
      let r := r.write_flag .N 0
      let r := r.write_flag .H 0
      let r := r.write_flag .C new_carry
      pure (1, r, m)
  | .Rra =>
      let value := r.read_8 .A
      let carry := r.read_flag .C
      let result := value / 2 + carry * 128
      let new_carry := get_bit_u8 value 0
      let r := r.write_8 .A result
      let r := r.write_flag .Z 0
      let r := r.write_flag .N 0
      let r := r.write_flag .H 0
      let r := r.write_flag .C new_carry
      pure (1, r, m)
  | .Daa =>
      let a := r.read_8 .A
      let n := r.read_flag .N
      let h := r.read_flag .H
      let c := r.read_flag .C
      let adjustment := if h = 1 ∨ 9 < a % 16 then 0x6 else 0
      let adjustment' := if c = 1 ∨ 0x99 < a then adjustment + 0x60 else adjustment
      let r := if c = 1 ∨ 0x99 < a then r.write_flag .C 1 else r
      let result := if n = 0 then wrapping_add8 a adjustment' else wrapping_sub8 a adjustment'
      let r := r.write_8 .A result
      let r := r.write_flag .Z (bit01 (result == 0))
      let r := r.write_flag .H 0
      pure (1, r, m)
  | .Cpl =>
      let a := r.read_8 .A
      let r := r.write_8 .A (255 - a)
      let r := r.write_flag .N 1
      let r := r.write_flag .H 1
      pure (1, r, m)
  | .Scf =>
      let r := r.write_flag .N 0
      let r := r.write_flag .H 0
      let r := r.write_flag .C 1
      pure (1, r, m)
  | .Ccf =>
      let c := r.read_flag .C
      let r := r.write_flag .N 0
      let r := r.write_flag .H 0
      let r := r.write_flag .C (if c = 1 then 0 else 1)
      pure (1, r, m)
  | .JrImm8 byte =>
      let pc := r.read_16 .PC
      let pc_new := wrapping_add_signed16 pc byte
      pure (3, r.write_16 .PC pc_new, m)
  | .JrCondImm8 condition byte =>
      let jump := match condition with
        | .NotZero => r.read_flag .Z == 0
        | .Zero => r.read_flag .Z == 1
        | .NotCarry => r.read_flag .C == 0
        | .Carry => r.read_flag .C == 1
      if jump then
        let pc := r.read_16 .PC
        let pc_new := wrapping_add_signed16 pc byte
        pure (3, r.write_16 .PC pc_new, m)
      else
        pure (2, r, m)
  | .Stop => .error .todoPanic
  | .LdMemHlR8 reg => do
      let value := r.read_8 (Register8.fromR8 reg)
      let adress := r.read_16 .HL
      let m ← m.write_byte adress value
      pure (2, r, m)
  | .LdR8MemHl reg => do
      let adress := r.read_16 .HL
      let value ← m.read_byte adress
      pure (2, r.write_8 (Register8.fromR8 reg) value, m)
  | .LdR8R8 tgt src =>
      let value := r.read_8 (Register8.fromR8 src)
      pure (1, r.write_8 (Register8.fromR8 tgt) value, m)
  | .Halt => .error .todoPanic
  | .AddAMemHl => do
      let adress := r.read_16 .HL
      let value ← m.read_byte adress
      let a := r.read_8 .A
      let (result, overflow) := overflowing_add8 a value
      let r := r.write_8 .A result
      let r := r.write_flag .Z (bit01 (result == 0))
      let r := r.write_flag .N 0
      let r := r.write_flag .H (bit01 (check_half_carry_add_u8 a value))
      let r := r.write_flag .C (bit01 overflow)
      pure (2, r, m)
  | .AddAR8 reg =>
      let value := r.read_8 (Register8.fromR8 reg)
      let a := r.read_8 .A
      let (result, overflow) := overflowing_add8 a value
      let r := r.write_8 .A result
      let r := r.write_flag .Z (bit01 (result == 0))
      let r := r.write_flag .N 0
      let r := r.write_flag .H (bit01 (check_half_carry_add_u8 a value))
      let r := r.write_flag .C (bit01 overflow)
      pure (1, r, m)
  | .AdcAMemHl => do
      let adress := r.read_16 .HL
      let value ← m.read_byte adress
      let a := r.read_8 .A
      let carry := r.read_flag .C
      let (partial_result, overflow_add_a_carry) := overflowing_add8 a carry
      let (result, overflow_add_sub_result_value) := overflowing_add8 partial_result value
      let half_overflow := check_half_carry_add_u8 a carry || check_half_carry_add_u8 partial_result value
      let overflow := overflow_add_a_carry || overflow_add_sub_result_value
      let r := r.write_8 .A result
      let r := r.write_flag .Z (bit01 (result == 0))
      let r := r.write_flag .N 0
      let r := r.write_flag .H (bit01 half_overflow)
      let r := r.write_flag .C (bit01 overflow)
      pure (2, r, m)
  | .AdcAR8 reg =>
      let value := r.read_8 (Register8.fromR8 reg)
      let a := r.read_8 .A
      let carry := r.read_flag .C
      let (partial_result, overflow_add_a_carry) := overflowing_add8 a carry
      let (result, overflow_add_sub_result_value) := overflowing_add8 partial_result value
      let half_overflow := check_half_carry_add_u8 a carry || check_half_carry_add_u8 partial_result value
      let overflow := overflow_add_a_carry || overflow_add_sub_result_value
      let r := r.write_8 .A result
      let r := r.write_flag .Z (bit01 (result == 0))
      let r := r.write_flag .N 0
      let r := r.write_flag .H (bit01 half_overflow)
      let r := r.write_flag .C (bit01 overflow)
      pure (1, r, m)
  | .SubAMemHl => do
      let adress := r.read_16 .HL
      let value ← m.read_byte adress
      let a := r.read_8 .A
      let (result, borrow) := overflowing_sub8 a value
      let r := r.write_8 .A result
      let r := r.write_flag .Z (bit01 (result == 0))
      let r := r.write_flag .N 1
      let r := r.write_flag .H (bit01 (check_half_borrow_sub_u8 a value))
      let r := r.write_flag .C (bit01 borrow)
      pure (2, r, m)
  | .SubAR8 reg =>
      let value := r.read_8 (Register8.fromR8 reg)
      let a := r.read_8 .A
      let (result, borrow) := overflowing_sub8 a value
      let r := r.write_8 .A result
      let r := r.write_flag .Z (bit01 (result == 0))
      let r := r.write_flag .N 1
      let r := r.write_flag .H (bit01 (check_half_borrow_sub_u8 a value))
      let r := r.write_flag .C (bit01 borrow)
      pure (1, r, m)
  | .SbcAMemHl => do
      let adress := r.read_16 .HL
      let value ← m.read_byte adress
      let a := r.read_8 .A
      let carry := r.read_flag .C
      let (sub_result, borrow_sub_a_borrow) := overflowing_sub8 a carry
      let (result, borrow_sub_result_value) := overflowing_sub8 sub_result value
      let half_borrow := check_half_borrow_sub_u8 a carry || check_half_borrow_sub_u8 sub_result value
      let overflow := borrow_sub_a_borrow || borrow_sub_result_value
      let r := r.write_8 .A result
      let r := r.write_flag .Z (bit01 (result == 0))
      let r := r.write_flag .N 1
      let r := r.write_flag .H (bit01 half_borrow)
      let r := r.write_flag .C (bit01 overflow)
      pure (2, r, m)
  | .SbcAR8 reg =>
      let a := r.read_8 .A
      let value := r.read_8 (Register8.fromR8 reg)
      let carry := r.read_flag .C
      let (sub_result, borrow_sub_a_borrow) := overflowing_sub8 a carry
      let (result, borrow_sub_result_value) := overflowing_sub8 sub_result value
      let half_borrow := check_half_borrow_sub_u8 a carry || check_half_borrow_sub_u8 sub_result value
      let overflow := borrow_sub_a_borrow || borrow_sub_result_value
      let r := r.write_8 .A result
      let r := r.write_flag .Z (bit01 (result == 0))
      let r := r.write_flag .N 1
      let r := r.write_flag .H (bit01 half_borrow)
      let r := r.write_flag .C (bit01 overflow)
      pure (1, r, m)
  | .AndAMemHl => do
      let adress := r.read_16 .HL
      let value ← m.read_byte adress
      let a := r.read_8 .A
      let result := Nat.land a value
      let r := r.write_8 .A result
      let r := r.write_flag .Z (bit01 (result == 0))
      let r := r.write_flag .N 0
      let r := r.write_flag .H 1
      pure (2, r, m)
  | .AndAR8 reg =>
      let value := r.read_8 (Register8.fromR8 reg)
      let a := r.read_8 .A
      let result := Nat.land a value
      let r := r.write_8 .A result
      let r := r.write_flag .Z (bit01 (result == 0))
      let r := r.write_flag .N 0
      let r := r.write_flag .H 1
      pure (1, r, m)
  | .XorAMemHl => do
      let adress := r.read_16 .HL
      let value ← m.read_byte adress
      let a := r.read_8 .A
      let result := Nat.xor a value
      let r := r.write_8 .A result
      let r := r.write_flag .Z (bit01 (result == 0))
      let r := r.write_flag .N 0
      let r := r.write_flag .H 0
      pure (2, r, m)
  | .XorAR8 reg =>
      let value := r.read_8 (Register8.fromR8 reg)
      let a := r.read_8 .A
      let result := Nat.xor a value
      let r := r.write_8 .A result
      let r := r.write_flag .Z (bit01 (result == 0))
      let r := r.write_flag .N 0
      let r := r.write_flag .H 0
      pure (1, r, m)
  | .OrAMemHl => do
      let adress := r.read_16 .HL
      let value ← m.read_byte adress
      let a := r.read_8 .A
      let result := Nat.lor a value
      let r := r.write_8 .A result
      let r := r.write_flag .Z (bit01 (result == 0))
      let r := r.write_flag .N 0
      let r := r.write_flag .H 0
      let r := r.write_flag .C 0
      pure (2, r, m)
  | .OrAR8 reg =>
      let value := r.read_8 (Register8.fromR8 reg)
      let a := r.read_8 .A
      let result := Nat.lor a value
      let r := r.write_8 .A result
      let r := r.write_flag .Z (bit01 (result == 0))
      let r := r.write_flag .N 0
      let r := r.write_flag .H 0
      let r := r.write_flag .C 0
      pure (1, r, m)
  | .CpAMemHl => do
      let adress := r.read_16 .HL
      let value ← m.read_byte adress
      let a := r.read_8 .A
      let (result, borrow) := overflowing_sub8 a value
      let r := r.write_flag .Z (bit01 (result == 0))
      let r := r.write_flag .N 1
      let r := r.write_flag .H (bit01 (check_half_borrow_sub_u8 a value))
      let r := r.write_flag .C (bit01 borrow)
      pure (2, r, m)
  | .CpAR8 reg =>
      let value := r.read_8 (Register8.fromR8 reg)
      let a := r.read_8 .A
      let (result, borrow) := overflowing_sub8 a value
      let r := r.write_flag .Z (bit01 (result == 0))
      let r := r.write_flag .N 1
      let r := r.write_flag .H (bit01 (check_half_borrow_sub_u8 a value))
      let r := r.write_flag .C (bit01 borrow)
      pure (1, r, m)
  | .AddAImm8 value =>
      let a := r.read_8 .A
      let (result, overflow) := overflowing_add8 a value
      let r := r.write_8 .A result
      let r := r.write_flag .Z (bit01 (result == 0))
      let r := r.write_flag .N 0
      let r := r.write_flag .H (bit01 (check_half_carry_add_u8 a value))
      let r := r.write_flag .C (bit01 overflow)
      pure (2, r, m)
  | .AdcAImm8 value =>
      let a := r.read_8 .A
      let c := r.read_flag .C
      let (sub_result, sub_result_carry) := overflowing_add8 a c
      let (result, result_carry) := overflowing_add8 sub_result value
      let half_carry := check_half_carry_add_u8 a c || check_half_carry_add_u8 sub_result value
      let carry := sub_result_carry || result_carry
      let r := r.write_8 .A result
      let r := r.write_flag .Z (bit01 (result == 0))
      let r := r.write_flag .N 0
      let r := r.write_flag .H (bit01 half_carry)
      let r := r.write_flag .C (bit01 carry)
      pure (2, r, m)
  | .SubAImm8 value =>
      let a := r.read_8 .A
      let (result, borrow) := overflowing_sub8 a value
      let r := r.write_8 .A result
      let r := r.write_flag .Z (bit01 (result == 0))
      let r := r.write_flag .N 1
      let r := r.write_flag .H (bit01 (check_half_borrow_sub_u8 a value))
      let r := r.write_flag .C (bit01 borrow)
      let r := r.write_flag .N 1
      pure (2, r, m)
  | .SbcAImm8 value =>
      let a := r.read_8 .A
      let c := r.read_flag .C
      let (sub_result, sub_result_borrow) := overflowing_sub8 a c
      let (result, result_borrow) := overflowing_sub8 sub_result value
      let half_borrow := check_half_borrow_sub_u8 a c || check_half_borrow_sub_u8 sub_result value
      let borrow := sub_result_borrow || result_borrow
      let r := r.write_8 .A result
      let r := r.write_flag .Z (bit01 (result == 0))
      let r := r.write_flag .N 1
      let r := r.write_flag .H (bit01 half_borrow)
      let r := r.write_flag .C (bit01 borrow)
      pure (2, r, m)
  | .AndAImm8 value =>
      let a := r.read_8 .A
      let result := Nat.land a value
      let r := r.write_8 .A result
      let r := r.write_flag .Z (bit01 (result == 0))
      let r := r.write_flag .N 0
      let r := r.write_flag .H 1
      let r := r.write_flag .C 0
      pure (2, r, m)
  | .XorAImm8 value =>
      let a := r.read_8 .A
      let result := Nat.xor a value
      let r := r.write_8 .A result
      let r := r.write_flag .Z (bit01 (result == 0))
      let r := r.write_flag .N 0
      let r := r.write_flag .H 0
      let r := r.write_flag .C 0
      pure (2, r, m)
  | .OrAImm8 value =>
      let a := r.read_8 .A
      let result := Nat.lor a value
      let r := r.write_8 .A result
      let r := r.write_flag .Z (bit01 (result == 0))
      let r := r.write_flag .N 0
      let r := r.write_flag .H 0
      let r := r.write_flag .C 0
      pure (2, r, m)
  | .CpAImm8 value =>
      let a := r.read_8 .A
      let (result, borrow) := overflowing_sub8 a value
      let r := r.write_flag .Z (bit01 (result == 0))
      let r := r.write_flag .N 1
      let r := r.write_flag .H (bit01 (check_half_borrow_sub_u8 a value))
      let r := r.write_flag .C (bit01 borrow)
      pure (2, r, m)
  | .RetCond condition =>
      let cond := match condition with
        | .Zero => r.read_flag .Z == 1
        | .NotZero => r.read_flag .Z == 0
        | .Carry => r.read_flag .C == 1
        | .NotCarry => r.read_flag .C == 0
      if !cond then pure (2, r, m)
      else do
        let (word, r) ← stack_pop_16 r m
        pure (5, r.write_16 .PC word, m)
  | .Ret => do
      let (word, r) ← stack_pop_16 r m
      pure (4, r.write_16 .PC word, m)
  | .Reti => .error .todoPanic
  | .JpCondImm16 condition location =>
      let jump := match condition with
        | .Zero => r.read_flag .Z == 1
        | .NotZero => r.read_flag .Z == 0
        | .Carry => r.read_flag .C == 1
        | .NotCarry => r.read_flag .C == 0
      if !jump then pure (3, r, m)
      else pure (4, { r with pc := location }, m)
  | .JpImm16 location =>
      pure (4, { r with pc := location }, m)
  | .JpHl =>
      let hl := r.read_16 .HL
      pure (1, r.write_16 .PC hl, m)
  | .CallCondImm16 condition location =>
      let call := match condition with
        | .Zero => r.read_flag .Z == 1
        | .NotZero => r.read_flag .Z == 0
        | .Carry => r.read_flag .C == 1
        | .NotCarry => r.read_flag .C == 0
      if !call then pure (3, r, m)
      else do
        let current_adress := r.read_16 .PC
        let (r, m) ← stack_push_16 r m current_adress
        pure (6, { r with pc := location }, m)
  | .CallImm16 location => do
      let current_adress := r.read_16 .PC
      let (r, m) ← stack_push_16 r m current_adress
      pure (6, { r with pc := location }, m)
  | .RstTgt3 tgt => do
      let adress := tgt.val
      let (r, m) ← stack_push_16 r m r.pc
      pure (4, { r with pc := adress }, m)
  | .PopR16Stk reg => do
      let (value, r) ← stack_pop_16 r m
      pure (3, r.write_16 (Register16.fromR16STK reg) value, m)
  | .PushR16Stk reg => do
      let value := r.read_16 (Register16.fromR16STK reg)
      let (r, m) ← stack_push_16 r m value
      pure (4, r, m)
  | .LdhMemCA => do
      let adress ← checkedAdd16 0xFF00 (r.read_8 .C)
      let value := r.read_8 .A
      let m ← m.write_byte adress value
      pure (2, r, m)
  | .LdhMemImm8A offset => do
      let adress ← checkedAdd16 0xFF00 (offset % 256)
      let value := r.read_8 .A
      let m ← m.write_byte adress value
      pure (3, r, m)
  | .LdMemImm16A adress => do
      let value := r.read_8 .A
      let m ← m.write_byte adress value
      pure (4, r, m)
  | .LdAMemC => do
      let address ← checkedAdd16 0xFF00 (r.read_8 .C)
      let value ← m.read_byte address
      pure (2, r.write_8 .A value, m)
  | .LdhAMemImm8 offset => do
      let adress ← checkedAdd16 0xFF00 (offset % 256)
      let value ← m.read_byte adress
      pure (3, r.write_8 .A value, m)
  | .LdAMemImm16 adress => do
      let value ← m.read_byte adress
      pure (4, r.write_8 .A value, m)
  | .AddSpImm8 byte =>
      let sp := r.read_16 .SP
      let operand := signExt8 byte
      let (result, overflow) := overflowing_add_signed16 sp operand
      let r := r.write_16 .SP result
      let r := r.write_flag .Z 0
      let r := r.write_flag .N 0
      let r :=
        if 0 < operand then
          let r := r.write_flag .H (bit01 (check_half_carry_add_u16_bit7 sp operand.toNat))
          r.write_flag .C (bit01 overflow)
        else
          let r := r.write_flag .H 0
          r.write_flag .C 0
      pure (4, r, m)
  | .LdHlSpImm8 byte =>
      let sp := r.read_16 .SP
      let operand := signExt8 byte
      let (result, overflow) := overflowing_add_signed16 sp operand
      let half_carry := 0 < operand ∧ check_half_carry_add_u16_bit7 sp operand.toNat
      let r := r.write_16 .HL result
      let r := r.write_flag .Z 0
      let r := r.write_flag .N 0
      let r := r.write_flag .H (bit01 (decide half_carry))
      let r := r.write_flag .C (bit01 overflow)
      pure (3, r, m)
  | .LdSpHl =>
      let value := r.read_16 .HL
      pure (2, r.write_16 .SP value, m)
  | .Di => .error .todoPanic
  | .Ei => .error .todoPanic
  | .RlcMemHl => .error .todoPanic
  | .RlcR8 _ => .error .todoPanic
  | .RrcMemHl => .error .todoPanic
  | .RrcR8 _ => .error .todoPanic
  | .RlMemHl => .error .todoPanic
  | .RlR8 _ => .error .todoPanic
  | .RrMemHl => .error .todoPanic
  | .RrR8 _ => .error .todoPanic
  | .SlaMemHl => .error .todoPanic
  | .SlaR8 _ => .error .todoPanic
  | .SraMemHl => .error .todoPanic
  | .SraR8 _ => .error .todoPanic
  | .SwapMemHl => .error .todoPanic
  | .SwapR8 _ => .error .todoPanic
  | .SrlMemHl => .error .todoPanic
  | .SrlR8 _ => .error .todoPanic
  | .BitB3MemHl _ => .error .todoPanic
  | .BitB3R8 _ _ => .error .todoPanic
  | .ResB3MemHl _ => .error .todoPanic
  | .ResB3R8 _ _ => .error .todoPanic
  | .SetB3MemHl _ => .error .todoPanic
  | .SetB3R8 _ _ => .error .todoPanic

/-! ## cpu/cpu_core.rs -/

/-- `Cpu::fetch_byte`: read at `pc`, then `pc += 1` (plain `u16` add). -/
def fetch_byte (m : Memory) (r : Registers) : Except Fault (Nat × Registers) := do
  let byte ← m.read_byte r.pc
  let pc' ← checkedAdd16 r.pc 1
  pure (byte, { r with pc := pc' })

/-- `Cpu::fetch_word`: read word at `pc`, then `pc += 2` (plain `u16` add). -/
def fetch_word (m : Memory) (r : Registers) : Except Fault (Nat × Registers) := do
  let word ← m.read_word r.pc
  let pc' ← checkedAdd16 r.pc 2
  pure (word, { r with pc := pc' })

/-- `map_prefixed_instruction`: the CB-prefix sub-decoder on
`(xx, aaa, bbb) = bits [7:6], [5:3], [2:0]`, in source arm order. -/
def map_prefixed_instruction (byte : Nat) : Except Fault Instruction :=
  let xx := byte / 64
  let aaa := byte / 8 % 8
  let bbb := byte % 8
  if xx = 0 ∧ aaa = 0 ∧ bbb = 6 then pure .RlcMemHl
  else if xx = 0 ∧ aaa = 0 then do pure (.RlcR8 (← R8.fromNat bbb))
  else if xx = 0 ∧ aaa = 1 ∧ bbb = 6 then pure .RrcMemHl
  else if xx = 0 ∧ aaa = 1 then do pure (.RrcR8 (← R8.fromNat bbb))
  else if xx = 0 ∧ aaa = 2 ∧ bbb = 6 then pure .RlMemHl
  else if xx = 0 ∧ aaa = 2 then do pure (.RlR8 (← R8.fromNat bbb))
  else if xx = 0 ∧ aaa = 3 ∧ bbb = 6 then pure .RrMemHl
  else if xx = 0 ∧ aaa = 3 then do pure (.RrR8 (← R8.fromNat bbb))
  else if xx = 0 ∧ aaa = 4 ∧ bbb = 6 then pure .SlaMemHl
  else if xx = 0 ∧ aaa = 4 then do pure (.SlaR8 (← R8.fromNat bbb))
  else if xx = 0 ∧ aaa = 5 ∧ bbb = 6 then pure .SraMemHl
  else if xx = 0 ∧ aaa = 5 then do pure (.SraR8 (← R8.fromNat bbb))
  else if xx = 0 ∧ aaa = 6 ∧ bbb = 6 then pure .SwapMemHl
  else if xx = 0 ∧ aaa = 6 then do pure (.SwapR8 (← R8.fromNat bbb))
  else if xx = 0 ∧ aaa = 7 ∧ bbb = 6 then pure .SrlMemHl
  else if xx = 0 ∧ aaa = 7 then do pure (.SrlR8 (← R8.fromNat bbb))
  else if xx = 1 ∧ bbb = 6 then do pure (.BitB3MemHl (← B3.fromNat aaa))
  else if xx = 1 then do pure (.BitB3R8 (← B3.fromNat aaa) (← R8.fromNat bbb))
  else if xx = 2 ∧ bbb = 6 then do pure (.ResB3MemHl (← B3.fromNat aaa))
  else if xx = 2 then do pure (.ResB3R8 (← B3.fromNat aaa) (← R8.fromNat bbb))
  else if xx = 3 ∧ bbb = 6 then do pure (.SetB3MemHl (← B3.fromNat aaa))
  else if xx = 3 then do pure (.SetB3R8 (← B3.fromNat aaa) (← R8.fromNat bbb))
  else .error .unknownInstructionPanic

/-- `Cpu::fetch_instruction`: fetch the opcode byte and decode it through the
three overlapping bit-field decompositions
`(xx, yy, zzzz) / (xx, aaa, bbb) / (iii, jj, bbb)`, testing the source's
patterns in their priority order; immediate operands are fetched inside the
matching arm. -/
def fetch_instruction (m : Memory) (r : Registers) :
    Except Fault (Instruction × Registers) := do
  let (opcode, r) ← fetch_byte m r
  let xx := opcode / 64
  let yy := opcode / 16 % 4
  let zzzz := opcode % 16
  let aaa := opcode / 8 % 8
  let bbb := opcode % 8
  let iii := opcode / 32
  let jj := opcode / 8 % 4
  if xx = 0 ∧ yy = 0 ∧ zzzz = 0 then pure (.Nop, r)
  else if xx = 0 ∧ zzzz = 1 then do
    let reg ← R16.fromNat yy
    let (w, r) ← fetch_word m r
    pure (.LdR16Imm16 reg w, r)
  else if xx = 0 ∧ zzzz = 2 then do
    pure (.LdR16MemA (← R16MEM.fromNat yy), r)
  else if xx = 0 ∧ zzzz = 0xA then do
    pure (.LdAR16Mem (← R16MEM.fromNat yy), r)
  else if xx = 0 ∧ yy = 0 ∧ zzzz = 8 then do
    let (w, r) ← fetch_word m r
    pure (.LdMemImm16SP w, r)
  else if xx = 0 ∧ zzzz = 3 then do
    pure (.IncR16 (← R16.fromNat yy), r)
  else if xx = 0 ∧ zzzz = 0xB then do
    pure (.DecR16 (← R16.fromNat yy), r)
  else if xx = 0 ∧ zzzz = 9 then do
    pure (.AddHlR16 (← R16.fromNat yy), r)
  else if xx = 0 ∧ aaa = 6 ∧ bbb = 4 then pure (.IncMemHl, r)
  else if xx = 0 ∧ bbb = 4 then do
    pure (.IncR8 (← R8.fromNat aaa), r)
  else if xx = 0 ∧ aaa = 6 ∧ bbb = 5 then pure (.DecMemHl, r)
  else if xx = 0 ∧ bbb = 5 then do
    pure (.DecR8 (← R8.fromNat aaa), r)
  else if xx = 0 ∧ aaa = 6 ∧ bbb = 6 then do
    let (b, r) ← fetch_byte m r
    pure (.LdMemHlImm8 b, r)
  else if xx = 0 ∧ bbb = 6 then do
    let reg ← R8.fromNat aaa
    let (b, r) ← fetch_byte m r
    pure (.LdR8Imm8 reg b, r)
  else if xx = 0 ∧ yy = 0 ∧ zzzz = 7 then pure (.Rlca, r)
  else if xx = 0 ∧ yy = 0 ∧ zzzz = 0xF then pure (.Rrca, r)
  else if xx = 0 ∧ yy = 1 ∧ zzzz = 7 then pure (.Rla, r)
  else if xx = 0 ∧ yy = 1 ∧ zzzz = 0xF then pure (.Rra, r)
  else if xx = 0 ∧ yy = 2 ∧ zzzz = 7 then pure (.Daa, r)
  else if xx = 0 ∧ yy = 2 ∧ zzzz = 0xF then pure (.Cpl, r)
  else if xx = 0 ∧ yy = 3 ∧ zzzz = 7 then pure (.Scf, r)
  else if xx = 0 ∧ yy = 3 ∧ zzzz = 0xF then pure (.Ccf, r)
  else if iii = 0 ∧ jj = 3 ∧ bbb = 0 then do
    let (b, r) ← fetch_byte m r
    pure (.JrImm8 b, r)
  else if iii = 1 ∧ bbb = 0 then do
    let c ← Cond.fromNat jj
    let (b, r) ← fetch_byte m r
    pure (.JrCondImm8 c b, r)
  else if xx = 0 ∧ yy = 1 ∧ zzzz = 0 then pure (.Stop, r)
  else if xx = 1 ∧ aaa = 6 ∧ bbb = 6 then pure (.Halt, r)
  else if xx = 1 ∧ aaa = 6 then do
    pure (.LdMemHlR8 (← R8.fromNat bbb), r)
  else if xx = 1 ∧ bbb = 6 then do
    pure (.LdR8MemHl (← R8.fromNat aaa), r)
  else if xx = 1 then do
    pure (.LdR8R8 (← R8.fromNat aaa) (← R8.fromNat bbb), r)
  else if xx = 2 ∧ aaa = 0 ∧ bbb = 6 then pure (.AddAMemHl, r)
  else if xx = 2 ∧ aaa = 0 then do
    pure (.AddAR8 (← R8.fromNat bbb), r)
  else if xx = 2 ∧ aaa = 1 ∧ bbb = 6 then pure (.AdcAMemHl, r)
  else if xx = 2 ∧ aaa = 1 then do
    pure (.AdcAR8 (← R8.fromNat bbb), r)
  else if xx = 2 ∧ aaa = 2 ∧ bbb = 6 then pure (.SubAMemHl, r)
  else if xx = 2 ∧ aaa = 2 then do
    pure (.SubAR8 (← R8.fromNat bbb), r)
  else if xx = 2 ∧ aaa = 3 ∧ bbb = 6 then pure (.SbcAMemHl, r)
  else if xx = 2 ∧ aaa = 3 then do
    pure (.SbcAR8 (← R8.fromNat bbb), r)
  else if xx = 2 ∧ aaa = 4 ∧ bbb = 6 then pure (.AndAMemHl, r)
  else if xx = 2 ∧ aaa = 4 then do
    pure (.AndAR8 (← R8.fromNat bbb), r)
  else if xx = 2 ∧ aaa = 5 ∧ bbb = 6 then pure (.XorAMemHl, r)
  else if xx = 2 ∧ aaa = 5 then do
    pure (.XorAR8 (← R8.fromNat bbb), r)
  else if xx = 2 ∧ aaa = 6 ∧ bbb = 6 then pure (.OrAMemHl, r)
  else if xx = 2 ∧ aaa = 6 then do
    pure (.OrAR8 (← R8.fromNat bbb), r)
  else if xx = 2 ∧ aaa = 7 ∧ bbb = 6 then pure (.CpAMemHl, r)
  else if xx = 2 ∧ aaa = 7 then do
    pure (.CpAR8 (← R8.fromNat bbb), r)
  else if xx = 3 ∧ yy = 0 ∧ zzzz = 6 then do
    let (b, r) ← fetch_byte m r
    pure (.AddAImm8 b, r)
  else if xx = 3 ∧ yy = 0 ∧ zzzz = 0xE then do
    let (b, r) ← fetch_byte m r
    pure (.AdcAImm8 b, r)
  else if xx = 3 ∧ yy = 1 ∧ zzzz = 6 then do
    let (b, r) ← fetch_byte m r
    pure (.SubAImm8 b, r)
  else if xx = 3 ∧ yy = 1 ∧ zzzz = 0xE then do
    let (b, r) ← fetch_byte m r
    pure (.SbcAImm8 b, r)
  else if xx = 3 ∧ yy = 2 ∧ zzzz = 6 then do
    let (b, r) ← fetch_byte m r
    pure (.AndAImm8 b, r)
  else if xx = 3 ∧ yy = 2 ∧ zzzz = 0xE then do
    let (b, r) ← fetch_byte m r
    pure (.XorAImm8 b, r)
  else if xx = 3 ∧ yy = 3 ∧ zzzz = 6 then do
    let (b, r) ← fetch_byte m r
    pure (.OrAImm8 b, r)
  else if xx = 3 ∧ yy = 3 ∧ zzzz = 0xE then do
    let (b, r) ← fetch_byte m r
    pure (.CpAImm8 b, r)
  else if iii = 6 ∧ bbb = 0 then do
    pure (.RetCond (← Cond.fromNat jj), r)
  else if iii = 6 ∧ jj = 1 ∧ bbb = 1 then pure (.Ret, r)
  else if iii = 6 ∧ jj = 3 ∧ bbb = 1 then pure (.Reti, r)
  else if iii = 6 ∧ bbb = 2 then do
    let c ← Cond.fromNat jj
    let (w, r) ← fetch_word m r
    pure (.JpCondImm16 c w, r)
  else if iii = 6 ∧ jj = 0 ∧ bbb = 3 then do
    let (w, r) ← fetch_word m r
    pure (.JpImm16 w, r)
  else if iii = 7 ∧ jj = 1 ∧ bbb = 1 then pure (.JpHl, r)
  else if iii = 6 ∧ bbb = 4 then do
    let c ← Cond.fromNat jj
    let (w, r) ← fetch_word m r
    pure (.CallCondImm16 c w, r)
  else if iii = 6 ∧ jj = 1 ∧ bbb = 5 then do
    let (w, r) ← fetch_word m r
    pure (.CallImm16 w, r)
  else if xx = 3 ∧ bbb = 7 then do
    pure (.RstTgt3 (← TGT3.fromNat aaa), r)
  else if xx = 3 ∧ zzzz = 1 then do
    pure (.PopR16Stk (← R16STK.fromNat yy), r)
  else if xx = 3 ∧ zzzz = 5 then do
    pure (.PushR16Stk (← R16STK.fromNat yy), r)
  else if xx = 3 ∧ yy = 0 ∧ zzzz = 0xB then do
    let (b, r) ← fetch_byte m r
    pure (← map_prefixed_instruction b, r)
  else if xx = 3 ∧ yy = 2 ∧ zzzz = 2 then pure (.LdhMemCA, r)
  else if xx = 3 ∧ yy = 2 ∧ zzzz = 0 then do
    let (b, r) ← fetch_byte m r
    pure (.LdhMemImm8A b, r)
  else if xx = 3 ∧ yy = 2 ∧ zzzz = 0xA then do
    let (w, r) ← fetch_word m r
    pure (.LdMemImm16A w, r)
  else if xx = 3 ∧ yy = 3 ∧ zzzz = 2 then pure (.LdAMemC, r)
  else if xx = 3 ∧ yy = 3 ∧ zzzz = 0 then do
    let (b, r) ← fetch_byte m r
    pure (.LdhAMemImm8 b, r)
  else if xx = 3 ∧ yy = 3 ∧ zzzz = 0xA then do
    let (w, r) ← fetch_word m r
    pure (.LdAMemImm16 w, r)
  else if xx = 3 ∧ yy = 2 ∧ zzzz = 8 then do
    let (b, r) ← fetch_byte m r
    pure (.AddSpImm8 b, r)
  else if xx = 3 ∧ yy = 3 ∧ zzzz = 8 then do
    let (b, r) ← fetch_byte m r
    pure (.LdHlSpImm8 b, r)
  else if xx = 3 ∧ yy = 3 ∧ zzzz = 9 then pure (.LdSpHl, r)
  else if xx = 3 ∧ yy = 3 ∧ zzzz = 3 then pure (.Di, r)
  else if xx = 3 ∧ yy = 3 ∧ zzzz = 0xB then pure (.Ei, r)
  else .error .unknownInstructionPanic

/-- `Cpu::tick`: fetch then execute, returning the cycle count. -/
def tick (m : Memory) (r : Registers) : Except Fault (Nat × Registers × Memory) := do
  let (instruction, r) ← fetch_instruction m r
  instruction.execute r m

/-- Encoded length in bytes of each instruction: one opcode byte plus the
encoded immediate operand bytes; every CB-prefixed instruction is two bytes.
This is the specification-side length table the PC-advance claim compares
the decoder against. -/
def instrLength : Instruction → Nat
  | .Nop => 1
  | .LdR16Imm16 _ _ => 3
  | .LdR16MemA _ => 1
  | .LdAR16Mem _ => 1
  | .LdMemImm16SP _ => 3
  | .IncR16 _ => 1
  | .DecR16 _ => 1
  | .AddHlR16 _ => 1
  | .IncR8 _ => 1
  | .IncMemHl => 1
  | .DecR8 _ => 1
  | .DecMemHl => 1
  | .LdR8Imm8 _ _ => 2
  | .LdMemHlImm8 _ => 2
  | .Rlca => 1
  | .Rrca => 1
  | .Rla => 1
  | .Rra => 1
  | .Daa => 1
  | .Cpl => 1
  | .Scf => 1
  | .Ccf => 1
  | .JrImm8 _ => 2
  | .JrCondImm8 _ _ => 2
  | .Stop => 1
  | .LdR8R8 _ _ => 1
  | .LdR8MemHl _ => 1
  | .LdMemHlR8 _ => 1
  | .Halt => 1
  | .AddAR8 _ => 1
  | .AddAMemHl => 1
  | .AdcAR8 _ => 1
  | .AdcAMemHl => 1
  | .SubAR8 _ => 1
  | .SubAMemHl => 1
  | .SbcAR8 _ => 1
  | .SbcAMemHl => 1
  | .AndAR8 _ => 1
  | .AndAMemHl => 1
  | .XorAR8 _ => 1
  | .XorAMemHl => 1
  | .OrAR8 _ => 1
  | .OrAMemHl => 1
  | .CpAR8 _ => 1
  | .CpAMemHl => 1
  | .AddAImm8 _ => 2
  | .AdcAImm8 _ => 2
  | .SubAImm8 _ => 2
  | .SbcAImm8 _ => 2
  | .AndAImm8 _ => 2
  | .XorAImm8 _ => 2
  | .OrAImm8 _ => 2
  | .CpAImm8 _ => 2
  | .RetCond _ => 1
  | .Ret => 1
  | .Reti => 1
  | .JpCondImm16 _ _ => 3
  | .JpImm16 _ => 3
  | .JpHl => 1
  | .CallCondImm16 _ _ => 3
  | .CallImm16 _ => 3
  | .RstTgt3 _ => 1
  | .PopR16Stk _ => 1
  | .PushR16Stk _ => 1
  | .LdhMemCA => 1
  | .LdhMemImm8A _ => 2
  | .LdMemImm16A _ => 3
  | .LdAMemC => 1
  | .LdhAMemImm8 _ => 2
  | .LdAMemImm16 _ => 3
  | .AddSpImm8 _ => 2
  | .LdHlSpImm8 _ => 2
  | .LdSpHl => 1
  | .Di => 1
  | .Ei => 1
  | .RlcMemHl => 2
  | .RlcR8 _ => 2
  | .RrcMemHl => 2
  | .RrcR8 _ => 2
  | .RlMemHl => 2
  | .RlR8 _ => 2
  | .RrMemHl => 2
  | .RrR8 _ => 2
  | .SlaMemHl => 2
  | .SlaR8 _ => 2
  | .SraMemHl => 2
  | .SraR8 _ => 2
  | .SwapMemHl => 2
  | .SwapR8 _ => 2
  | .SrlMemHl => 2
  | .SrlR8 _ => 2
  | .BitB3MemHl _ => 2
  | .BitB3R8 _ _ => 2
  | .ResB3MemHl _ => 2
  | .ResB3R8 _ _ => 2
  | .SetB3MemHl _ => 2
  | .SetB3R8 _ _ => 2

/-! ## Segment table and memory lemmas -/

deriving instance DecidableEq for Except

/-- The named segments of §3's address table. -/
inductive Segment where
  | rom00 | romNN | vram | exram | wram0 | wramNN | echo | oam | io | hram | ie
  deriving DecidableEq, Repr

/-- The address range of each segment, exactly the constants of
`memory.rs`. -/
def Segment.contains (s : Segment) (a : Nat) : Prop :=
  match s with
  | .rom00 => a ≤ 0x3FFF
  | .romNN => 0x4000 ≤ a ∧ a ≤ 0x7FFF
  | .vram => 0x8000 ≤ a ∧ a ≤ 0x9FFF
  | .exram => 0xA000 ≤ a ∧ a ≤ 0xBFFF
  | .wram0 => 0xC000 ≤ a ∧ a ≤ 0xCFFF
  | .wramNN => 0xD000 ≤ a ∧ a ≤ 0xDFFF
  | .echo => 0xE000 ≤ a ∧ a ≤ 0xFDFF
  | .oam => 0xFE00 ≤ a ∧ a ≤ 0xFE9F
  | .io => 0xFF00 ≤ a ∧ a ≤ 0xFF7F
  | .hram => 0xFF80 ≤ a ∧ a ≤ 0xFFFE
  | .ie => a = 0xFFFF

/-- Addresses on which `read_byte`/`write_byte` succeed: everything except
the echo-RAM range and the unhandled `0xFEA0`–`0xFEFF` hole. -/
def mappedAddr (a : Nat) : Prop :=
  a ≤ 0xDFFF ∨ (0xFE00 ≤ a ∧ a ≤ 0xFE9F) ∨ (0xFF00 ≤ a ∧ a ≤ 0xFF7F) ∨
    (0xFF80 ≤ a ∧ a ≤ 0xFFFF)

instance (a : Nat) : Decidable (mappedAddr a) :=
  inferInstanceAs (Decidable (a ≤ 0xDFFF ∨ (0xFE00 ≤ a ∧ a ≤ 0xFE9F) ∨
    (0xFF00 ≤ a ∧ a ≤ 0xFF7F) ∨ (0xFF80 ≤ a ∧ a ≤ 0xFFFF)))

/-! Per-segment routing equations for `read_byte`/`write_byte`, proved by
walking the ordered range dispatch. -/

theorem read_byte_rom00 (m : Memory) (a : Nat) (h1 : a ≤ 0x3FFF) :
    m.read_byte a = .ok (m.rom_00 (a - 0x0000) % 256) := by
  delta Memory.read_byte
  rw [if_pos (show a ≤ 0x3FFF by omega)]

theorem write_byte_rom00 (m : Memory) (a v : Nat) (h1 : a ≤ 0x3FFF) :
    m.write_byte a v = .ok { m with rom_00 := Function.update m.rom_00 (a - 0x0000) (v % 256) } := by
  delta Memory.write_byte
  rw [if_pos (show a ≤ 0x3FFF by omega)]

theorem read_byte_romNN (m : Memory) (a : Nat) (h1 : 0x4000 ≤ a) (h2 : a ≤ 0x7FFF) :
    m.read_byte a = .ok (m.rom_nn (a - 0x4000) % 256) := by
  delta Memory.read_byte
  rw [if_neg (show ¬(a ≤ 0x3FFF) by omega)]
  rw [if_pos (show a ≤ 0x7FFF by omega)]

theorem write_byte_romNN (m : Memory) (a v : Nat) (h1 : 0x4000 ≤ a) (h2 : a ≤ 0x7FFF) :
    m.write_byte a v = .ok { m with rom_nn := Function.update m.rom_nn (a - 0x4000) (v % 256) } := by
  delta Memory.write_byte
  rw [if_neg (show ¬(a ≤ 0x3FFF) by omega)]
  rw [if_pos (show a ≤ 0x7FFF by omega)]

theorem read_byte_vram (m : Memory) (a : Nat) (h1 : 0x8000 ≤ a) (h2 : a ≤ 0x9FFF) :
    m.read_byte a = .ok (m.vram (a - 0x8000) % 256) := by
  delta Memory.read_byte
  rw [if_neg (show ¬(a ≤ 0x3FFF) by omega)]
  rw [if_neg (show ¬(a ≤ 0x7FFF) by omega)]
  rw [if_pos (show a ≤ 0x9FFF by omega)]

theorem write_byte_vram (m : Memory) (a v : Nat) (h1 : 0x8000 ≤ a) (h2 : a ≤ 0x9FFF) :
    m.write_byte a v = .ok { m with vram := Function.update m.vram (a - 0x8000) (v % 256) } := by
  delta Memory.write_byte
  rw [if_neg (show ¬(a ≤ 0x3FFF) by omega)]
  rw [if_neg (show ¬(a ≤ 0x7FFF) by omega)]
  rw [if_pos (show a ≤ 0x9FFF by omega)]

theorem read_byte_exram (m : Memory) (a : Nat) (h1 : 0xA000 ≤ a) (h2 : a ≤ 0xBFFF) :
    m.read_byte a = .ok (m.exram (a - 0xA000) % 256) := by
  delta Memory.read_byte
  rw [if_neg (show ¬(a ≤ 0x3FFF) by omega)]
  rw [if_neg (show ¬(a ≤ 0x7FFF) by omega)]
  rw [if_neg (show ¬(a ≤ 0x9FFF) by omega)]
  rw [if_pos (show a ≤ 0xBFFF by omega)]

theorem write_byte_exram (m : Memory) (a v : Nat) (h1 : 0xA000 ≤ a) (h2 : a ≤ 0xBFFF) :
    m.write_byte a v = .ok { m with exram := Function.update m.exram (a - 0xA000) (v % 256) } := by
  delta Memory.write_byte
  rw [if_neg (show ¬(a ≤ 0x3FFF) by omega)]
  rw [if_neg (show ¬(a ≤ 0x7FFF) by omega)]
  rw [if_neg (show ¬(a ≤ 0x9FFF) by omega)]
  rw [if_pos (show a ≤ 0xBFFF by omega)]

theorem read_byte_wram0 (m : Memory) (a : Nat) (h1 : 0xC000 ≤ a) (h2 : a ≤ 0xCFFF) :
    m.read_byte a = .ok (m.wram_0 (a - 0xC000) % 256) := by
  delta Memory.read_byte
  rw [if_neg (show ¬(a ≤ 0x3FFF) by omega)]
  rw [if_neg (show ¬(a ≤ 0x7FFF) by omega)]
  rw [if_neg (show ¬(a ≤ 0x9FFF) by omega)]
  rw [if_neg (show ¬(a ≤ 0xBFFF) by omega)]
  rw [if_pos (show a ≤ 0xCFFF by omega)]

theorem write_byte_wram0 (m : Memory) (a v : Nat) (h1 : 0xC000 ≤ a) (h2 : a ≤ 0xCFFF) :
    m.write_byte a v = .ok { m with wram_0 := Function.update m.wram_0 (a - 0xC000) (v % 256) } := by
  delta Memory.write_byte
  rw [if_neg (show ¬(a ≤ 0x3FFF) by omega)]
  rw [if_neg (show ¬(a ≤ 0x7FFF) by omega)]
  rw [if_neg (show ¬(a ≤ 0x9FFF) by omega)]
  rw [if_neg (show ¬(a ≤ 0xBFFF) by omega)]
  rw [if_pos (show a ≤ 0xCFFF by omega)]

theorem read_byte_wramNN (m : Memory) (a : Nat) (h1 : 0xD000 ≤ a) (h2 : a ≤ 0xDFFF) :
    m.read_byte a = .ok (m.wram_nn (a - 0xD000) % 256) := by
  delta Memory.read_byte
  rw [if_neg (show ¬(a ≤ 0x3FFF) by omega)]
  rw [if_neg (show ¬(a ≤ 0x7FFF) by omega)]
  rw [if_neg (show ¬(a ≤ 0x9FFF) by omega)]
  rw [if_neg (show ¬(a ≤ 0xBFFF) by omega)]
  rw [if_neg (show ¬(a ≤ 0xCFFF) by omega)]
  rw [if_pos (show a ≤ 0xDFFF by omega)]

theorem write_byte_wramNN (m : Memory) (a v : Nat) (h1 : 0xD000 ≤ a) (h2 : a ≤ 0xDFFF) :
    m.write_byte a v = .ok { m with wram_nn := Function.update m.wram_nn (a - 0xD000) (v % 256) } := by
  delta Memory.write_byte
  rw [if_neg (show ¬(a ≤ 0x3FFF) by omega)]
  rw [if_neg (show ¬(a ≤ 0x7FFF) by omega)]
  rw [if_neg (show ¬(a ≤ 0x9FFF) by omega)]
  rw [if_neg (show ¬(a ≤ 0xBFFF) by omega)]
  rw [if_neg (show ¬(a ≤ 0xCFFF) by omega)]
  rw [if_pos (show a ≤ 0xDFFF by omega)]

theorem read_byte_oam (m : Memory) (a : Nat) (h1 : 0xFE00 ≤ a) (h2 : a ≤ 0xFE9F) :
    m.read_byte a = .ok (m.oam (a - 0xFE00) % 256) := by
  delta Memory.read_byte
  rw [if_neg (show ¬(a ≤ 0x3FFF) by omega)]
  rw [if_neg (show ¬(a ≤ 0x7FFF) by omega)]
  rw [if_neg (show ¬(a ≤ 0x9FFF) by omega)]
  rw [if_neg (show ¬(a ≤ 0xBFFF) by omega)]
  rw [if_neg (show ¬(a ≤ 0xCFFF) by omega)]
  rw [if_neg (show ¬(a ≤ 0xDFFF) by omega)]
  rw [if_neg (show ¬(a ≤ 0xFDFF) by omega)]
  rw [if_pos (show a ≤ 0xFE9F by omega)]

theorem write_byte_oam (m : Memory) (a v : Nat) (h1 : 0xFE00 ≤ a) (h2 : a ≤ 0xFE9F) :
    m.write_byte a v = .ok { m with oam := Function.update m.oam (a - 0xFE00) (v % 256) } := by
  delta Memory.write_byte
  rw [if_neg (show ¬(a ≤ 0x3FFF) by omega)]
  rw [if_neg (show ¬(a ≤ 0x7FFF) by omega)]
  rw [if_neg (show ¬(a ≤ 0x9FFF) by omega)]
  rw [if_neg (show ¬(a ≤ 0xBFFF) by omega)]
  rw [if_neg (show ¬(a ≤ 0xCFFF) by omega)]
  rw [if_neg (show ¬(a ≤ 0xDFFF) by omega)]
  rw [if_neg (show ¬(a ≤ 0xFDFF) by omega)]
  rw [if_pos (show a ≤ 0xFE9F by omega)]

theorem read_byte_io (m : Memory) (a : Nat) (h1 : 0xFF00 ≤ a) (h2 : a ≤ 0xFF7F) :
    m.read_byte a = .ok (m.io (a - 0xFF00) % 256) := by
  delta Memory.read_byte
  rw [if_neg (show ¬(a ≤ 0x3FFF) by omega)]
  rw [if_neg (show ¬(a ≤ 0x7FFF) by omega)]
  rw [if_neg (show ¬(a ≤ 0x9FFF) by omega)]
  rw [if_neg (show ¬(a ≤ 0xBFFF) by omega)]
  rw [if_neg (show ¬(a ≤ 0xCFFF) by omega)]
  rw [if_neg (show ¬(a ≤ 0xDFFF) by omega)]
  rw [if_neg (show ¬(a ≤ 0xFDFF) by omega)]
  rw [if_neg (show ¬(a ≤ 0xFE9F) by omega)]
  rw [if_pos (show 0xFF00 ≤ a ∧ a ≤ 0xFF7F by omega)]

theorem write_byte_io (m : Memory) (a v : Nat) (h1 : 0xFF00 ≤ a) (h2 : a ≤ 0xFF7F) :
    m.write_byte a v = .ok { m with io := Function.update m.io (a - 0xFF00) (v % 256) } := by
  delta Memory.write_byte
  rw [if_neg (show ¬(a ≤ 0x3FFF) by omega)]
  rw [if_neg (show ¬(a ≤ 0x7FFF) by omega)]
  rw [if_neg (show ¬(a ≤ 0x9FFF) by omega)]
  rw [if_neg (show ¬(a ≤ 0xBFFF) by omega)]
  rw [if_neg (show ¬(a ≤ 0xCFFF) by omega)]
  rw [if_neg (show ¬(a ≤ 0xDFFF) by omega)]
  rw [if_neg (show ¬(a ≤ 0xFDFF) by omega)]
  rw [if_neg (show ¬(a ≤ 0xFE9F) by omega)]
  rw [if_pos (show 0xFF00 ≤ a ∧ a ≤ 0xFF7F by omega)]

theorem read_byte_hram (m : Memory) (a : Nat) (h1 : 0xFF80 ≤ a) (h2 : a ≤ 0xFFFE) :
    m.read_byte a = .ok (m.hram (a - 0xFF80) % 256) := by
  delta Memory.read_byte
  rw [if_neg (show ¬(a ≤ 0x3FFF) by omega)]
  rw [if_neg (show ¬(a ≤ 0x7FFF) by omega)]
  rw [if_neg (show ¬(a ≤ 0x9FFF) by omega)]
  rw [if_neg (show ¬(a ≤ 0xBFFF) by omega)]
  rw [if_neg (show ¬(a ≤ 0xCFFF) by omega)]
  rw [if_neg (show ¬(a ≤ 0xDFFF) by omega)]
  rw [if_neg (show ¬(a ≤ 0xFDFF) by omega)]
  rw [if_neg (show ¬(a ≤ 0xFE9F) by omega)]
  rw [if_neg (show ¬(0xFF00 ≤ a ∧ a ≤ 0xFF7F) by omega)]
  rw [if_pos (show 0xFF80 ≤ a ∧ a ≤ 0xFFFE by omega)]

theorem write_byte_hram (m : Memory) (a v : Nat) (h1 : 0xFF80 ≤ a) (h2 : a ≤ 0xFFFE) :
    m.write_byte a v = .ok { m with hram := Function.update m.hram (a - 0xFF80) (v % 256) } := by
  delta Memory.write_byte
  rw [if_neg (show ¬(a ≤ 0x3FFF) by omega)]
  rw [if_neg (show ¬(a ≤ 0x7FFF) by omega)]
  rw [if_neg (show ¬(a ≤ 0x9FFF) by omega)]
  rw [if_neg (show ¬(a ≤ 0xBFFF) by omega)]
  rw [if_neg (show ¬(a ≤ 0xCFFF) by omega)]
  rw [if_neg (show ¬(a ≤ 0xDFFF) by omega)]
  rw [if_neg (show ¬(a ≤ 0xFDFF) by omega)]
  rw [if_neg (show ¬(a ≤ 0xFE9F) by omega)]
  rw [if_neg (show ¬(0xFF00 ≤ a ∧ a ≤ 0xFF7F) by omega)]
  rw [if_pos (show 0xFF80 ≤ a ∧ a ≤ 0xFFFE by omega)]

theorem read_byte_ie (m : Memory) (a : Nat) (h1 : a = 0xFFFF) :
    m.read_byte a = .ok (m.ie (a - 0xFFFF) % 256) := by
  delta Memory.read_byte
  rw [if_neg (show ¬(a ≤ 0x3FFF) by omega)]
  rw [if_neg (show ¬(a ≤ 0x7FFF) by omega)]
  rw [if_neg (show ¬(a ≤ 0x9FFF) by omega)]
  rw [if_neg (show ¬(a ≤ 0xBFFF) by omega)]
  rw [if_neg (show ¬(a ≤ 0xCFFF) by omega)]
  rw [if_neg (show ¬(a ≤ 0xDFFF) by omega)]
  rw [if_neg (show ¬(a ≤ 0xFDFF) by omega)]
  rw [if_neg (show ¬(a ≤ 0xFE9F) by omega)]
  rw [if_neg (show ¬(0xFF00 ≤ a ∧ a ≤ 0xFF7F) by omega)]
  rw [if_neg (show ¬(0xFF80 ≤ a ∧ a ≤ 0xFFFE) by omega)]
  rw [if_pos (show a = 0xFFFF by omega)]

theorem write_byte_ie (m : Memory) (a v : Nat) (h1 : a = 0xFFFF) :
    m.write_byte a v = .ok { m with ie := Function.update m.ie (a - 0xFFFF) (v % 256) } := by
  delta Memory.write_byte
  rw [if_neg (show ¬(a ≤ 0x3FFF) by omega)]
  rw [if_neg (show ¬(a ≤ 0x7FFF) by omega)]
  rw [if_neg (show ¬(a ≤ 0x9FFF) by omega)]
  rw [if_neg (show ¬(a ≤ 0xBFFF) by omega)]
  rw [if_neg (show ¬(a ≤ 0xCFFF) by omega)]
  rw [if_neg (show ¬(a ≤ 0xDFFF) by omega)]
  rw [if_neg (show ¬(a ≤ 0xFDFF) by omega)]
  rw [if_neg (show ¬(a ≤ 0xFE9F) by omega)]
  rw [if_neg (show ¬(0xFF00 ≤ a ∧ a ≤ 0xFF7F) by omega)]
  rw [if_neg (show ¬(0xFF80 ≤ a ∧ a ≤ 0xFFFE) by omega)]
  rw [if_pos (show a = 0xFFFF by omega)]

theorem read_byte_echo (m : Memory) (a : Nat) (h1 : 0xE000 ≤ a) (h2 : a ≤ 0xFDFF) :
    m.read_byte a = .error .echoRamPanic := by
  delta Memory.read_byte
  rw [if_neg (show ¬(a ≤ 0x3FFF) by omega)]
  rw [if_neg (show ¬(a ≤ 0x7FFF) by omega)]
  rw [if_neg (show ¬(a ≤ 0x9FFF) by omega)]
  rw [if_neg (show ¬(a ≤ 0xBFFF) by omega)]
  rw [if_neg (show ¬(a ≤ 0xCFFF) by omega)]
  rw [if_neg (show ¬(a ≤ 0xDFFF) by omega)]
  rw [if_pos (show a ≤ 0xFDFF by omega)]

theorem write_byte_echo (m : Memory) (a : Nat) (v : Nat) (h1 : 0xE000 ≤ a) (h2 : a ≤ 0xFDFF) :
    m.write_byte a v = .error .echoRamPanic := by
  delta Memory.write_byte
  rw [if_neg (show ¬(a ≤ 0x3FFF) by omega)]
  rw [if_neg (show ¬(a ≤ 0x7FFF) by omega)]
  rw [if_neg (show ¬(a ≤ 0x9FFF) by omega)]
  rw [if_neg (show ¬(a ≤ 0xBFFF) by omega)]
  rw [if_neg (show ¬(a ≤ 0xCFFF) by omega)]
  rw [if_neg (show ¬(a ≤ 0xDFFF) by omega)]
  rw [if_pos (show a ≤ 0xFDFF by omega)]

theorem read_byte_invalid (m : Memory) (a : Nat) (h1 : 0xFEA0 ≤ a)
    (h2 : a ≤ 0xFEFF ∨ 0x10000 ≤ a) :
    m.read_byte a = .error .invalidAddressPanic := by
  delta Memory.read_byte
  rw [if_neg (show ¬(a ≤ 0x3FFF) by omega)]
  rw [if_neg (show ¬(a ≤ 0x7FFF) by omega)]
  rw [if_neg (show ¬(a ≤ 0x9FFF) by omega)]
  rw [if_neg (show ¬(a ≤ 0xBFFF) by omega)]
  rw [if_neg (show ¬(a ≤ 0xCFFF) by omega)]
  rw [if_neg (show ¬(a ≤ 0xDFFF) by omega)]
  rw [if_neg (show ¬(a ≤ 0xFDFF) by omega)]
  rw [if_neg (show ¬(a ≤ 0xFE9F) by omega)]
  rw [if_neg (show ¬(0xFF00 ≤ a ∧ a ≤ 0xFF7F) by omega)]
  rw [if_neg (show ¬(0xFF80 ≤ a ∧ a ≤ 0xFFFE) by omega)]
  rw [if_neg (show ¬(a = 0xFFFF) by omega)]

theorem write_byte_invalid (m : Memory) (a : Nat) (v : Nat) (h1 : 0xFEA0 ≤ a)
    (h2 : a ≤ 0xFEFF ∨ 0x10000 ≤ a) :
    m.write_byte a v = .error .invalidAddressPanic := by
  delta Memory.write_byte
  rw [if_neg (show ¬(a ≤ 0x3FFF) by omega)]
  rw [if_neg (show ¬(a ≤ 0x7FFF) by omega)]
  rw [if_neg (show ¬(a ≤ 0x9FFF) by omega)]
  rw [if_neg (show ¬(a ≤ 0xBFFF) by omega)]
  rw [if_neg (show ¬(a ≤ 0xCFFF) by omega)]
  rw [if_neg (show ¬(a ≤ 0xDFFF) by omega)]
  rw [if_neg (show ¬(a ≤ 0xFDFF) by omega)]
  rw [if_neg (show ¬(a ≤ 0xFE9F) by omega)]
  rw [if_neg (show ¬(0xFF00 ≤ a ∧ a ≤ 0xFF7F) by omega)]
  rw [if_neg (show ¬(0xFF80 ≤ a ∧ a ≤ 0xFFFE) by omega)]
  rw [if_neg (show ¬(a = 0xFFFF) by omega)]

/-- Writing a mapped byte succeeds, reads back as the stored value, and
leaves every other address unchanged. -/
theorem write_byte_props (m : Memory) (a v : Nat) (h : mappedAddr a) :
    ∃ m', m.write_byte a v = .ok m' ∧ m'.read_byte a = .ok (v % 256) ∧
      ∀ a', a' ≠ a → m'.read_byte a' = m.read_byte a' := by
  have hd : a ≤ 0x3FFF ∨ (0x4000 ≤ a ∧ a ≤ 0x7FFF) ∨ (0x8000 ≤ a ∧ a ≤ 0x9FFF) ∨
      (0xA000 ≤ a ∧ a ≤ 0xBFFF) ∨ (0xC000 ≤ a ∧ a ≤ 0xCFFF) ∨ (0xD000 ≤ a ∧ a ≤ 0xDFFF) ∨
      (0xFE00 ≤ a ∧ a ≤ 0xFE9F) ∨ (0xFF00 ≤ a ∧ a ≤ 0xFF7F) ∨ (0xFF80 ≤ a ∧ a ≤ 0xFFFE) ∨
      a = 0xFFFF := by
    simp only [mappedAddr] at h
    omega
  clear h
  rcases hd with h1 | h1 | h1 | h1 | h1 | h1 | h1 | h1 | h1 | h1 <;>
    refine ⟨_, by first
      | exact write_byte_rom00 m a v (by omega)
      | exact write_byte_romNN m a v (by omega) (by omega)
      | exact write_byte_vram m a v (by omega) (by omega)
      | exact write_byte_exram m a v (by omega) (by omega)
      | exact write_byte_wram0 m a v (by omega) (by omega)
      | exact write_byte_wramNN m a v (by omega) (by omega)
      | exact write_byte_oam m a v (by omega) (by omega)
      | exact write_byte_io m a v (by omega) (by omega)
      | exact write_byte_hram m a v (by omega) (by omega)
      | exact write_byte_ie m a v (by omega), ?_, ?_⟩ <;>
    first
    | -- read back the written byte
      (first
        | rw [read_byte_rom00 _ a (by omega)]
        | rw [read_byte_romNN _ a (by omega) (by omega)]
        | rw [read_byte_vram _ a (by omega) (by omega)]
        | rw [read_byte_exram _ a (by omega) (by omega)]
        | rw [read_byte_wram0 _ a (by omega) (by omega)]
        | rw [read_byte_wramNN _ a (by omega) (by omega)]
        | rw [read_byte_oam _ a (by omega) (by omega)]
        | rw [read_byte_io _ a (by omega) (by omega)]
        | rw [read_byte_hram _ a (by omega) (by omega)]
        | rw [read_byte_ie _ a (by omega)]
       dsimp only
       rw [Function.update_same]
       congr 1
       omega)
    | -- frame: all other addresses unchanged
      (intro a' hne
       have hz : a' ≤ 0x3FFF ∨ (0x4000 ≤ a' ∧ a' ≤ 0x7FFF) ∨ (0x8000 ≤ a' ∧ a' ≤ 0x9FFF) ∨
           (0xA000 ≤ a' ∧ a' ≤ 0xBFFF) ∨ (0xC000 ≤ a' ∧ a' ≤ 0xCFFF) ∨
           (0xD000 ≤ a' ∧ a' ≤ 0xDFFF) ∨ (0xE000 ≤ a' ∧ a' ≤ 0xFDFF) ∨
           (0xFE00 ≤ a' ∧ a' ≤ 0xFE9F) ∨ (0xFF00 ≤ a' ∧ a' ≤ 0xFF7F) ∨
           (0xFF80 ≤ a' ∧ a' ≤ 0xFFFE) ∨ a' = 0xFFFF ∨
           (0xFEA0 ≤ a' ∧ (a' ≤ 0xFEFF ∨ 0x10000 ≤ a')) := by omega
       rcases hz with hz | hz | hz | hz | hz | hz | hz | hz | hz | hz | hz | hz <;>
         first
         | rw [read_byte_echo _ a' (by omega) (by omega),
               read_byte_echo _ a' (by omega) (by omega)]
         | rw [read_byte_invalid _ a' (by omega) (by omega),
               read_byte_invalid _ a' (by omega) (by omega)]
         | (first
             | rw [read_byte_rom00 _ a' (by omega),
                   read_byte_rom00 _ a' (by omega)]
             | rw [read_byte_romNN _ a' (by omega) (by omega),
                   read_byte_romNN _ a' (by omega) (by omega)]
             | rw [read_byte_vram _ a' (by omega) (by omega),
                   read_byte_vram _ a' (by omega) (by omega)]
             | rw [read_byte_exram _ a' (by omega) (by omega),
                   read_byte_exram _ a' (by omega) (by omega)]
             | rw [read_byte_wram0 _ a' (by omega) (by omega),
                   read_byte_wram0 _ a' (by omega) (by omega)]
             | rw [read_byte_wramNN _ a' (by omega) (by omega),
                   read_byte_wramNN _ a' (by omega) (by omega)]
             | rw [read_byte_oam _ a' (by omega) (by omega),
                   read_byte_oam _ a' (by omega) (by omega)]
             | rw [read_byte_io _ a' (by omega) (by omega),
                   read_byte_io _ a' (by omega) (by omega)]
             | rw [read_byte_hram _ a' (by omega) (by omega),
                   read_byte_hram _ a' (by omega) (by omega)]
             | rw [read_byte_ie _ a' (by omega),
                   read_byte_ie _ a' (by omega)]
            all_goals (dsimp only
                       try rw [Function.update_noteq (by omega)])))

theorem read_16_lt (r : Registers) (reg : Register16) : r.read_16 reg < 65536 := by
  cases reg <;> simp [Registers.read_16] <;> omega

theorem pure_eq_ok (a : α) : (pure a : Except Fault α) = .ok a := rfl

theorem ok_bind (a : α) (f : α → Except Fault β) :
    (Except.ok a : Except Fault α) >>= f = f a := rfl

theorem map_ok (f : α → β) (a : α) :
    f <$> (Except.ok a : Except Fault α) = .ok (f a) := rfl

theorem map_error (f : α → β) (e : Fault) :
    f <$> (Except.error e : Except Fault α) = .error e := rfl

theorem error_bind (e : Fault) (f : α → Except Fault β) :
    (Except.error e : Except Fault α) >>= f = .error e := rfl

/-- Writing a word at a mapped address pair and reading it back: the word
round-trips and all other addresses are unchanged. -/
theorem write_read_word (m : Memory) (a v : Nat) (ha : a < 0xFFFF)
    (h1 : mappedAddr a) (h2 : mappedAddr (a + 1)) (hv : v < 65536) :
    ∃ m', m.write_word a v = .ok m' ∧ m'.read_word a = .ok v ∧
      ∀ a', a' ≠ a → a' ≠ a + 1 → m'.read_byte a' = m.read_byte a' := by
  obtain ⟨m1, hw1, hr1, hf1⟩ := write_byte_props m a (get_lo v) h1
  obtain ⟨m2, hw2, hr2, hf2⟩ := write_byte_props m1 (a + 1) (get_hi v) h2
  have hadd : checkedAdd16 a 1 = .ok (a + 1) := by
    unfold checkedAdd16; rw [if_pos (by omega)]
  refine ⟨m2, ?_, ?_, ?_⟩
  · simp only [Memory.write_word, split, hw1, ok_bind, hadd, hw2]
  · have hlo : m2.read_byte a = .ok (get_lo v % 256) := by
      rw [hf2 a (by omega)]
      exact hr1
    simp only [Memory.read_word, ok_bind, hlo, hadd, hr2]
    simp only [combine, get_hi, get_lo, pure, Except.pure]
    congr 1
    omega
  · intro a' hne1 hne2
    rw [hf2 a' hne2]
    exact hf1 a' hne1

/-! ## Claim theorems -/

/-- C5 (amended): the word round-trip `write_word(addr, v); read_word(addr)
== v` holds for every address whose two bytes both land in a mapped segment
(not echo RAM, not the `0xFEA0`–`0xFEFF` hole) and whose `addr + 1` does not
overflow `u16`; `write_word` stores the low byte at `addr` and the high byte
at `addr + 1`, and `read_word` recombines them little-endian.  As stated in
the spec — for all `addr, value : u16` — the claim fails on the echo-RAM
panic (see the counterexample). -/
theorem c5_write_read_word_roundtrip (m : Memory) (a v : Nat) (ha : a < 0xFFFF)
    (h1 : mappedAddr a) (h2 : mappedAddr (a + 1)) (hv : v < 65536) :
    (m.write_word a v >>= fun m1 => m1.read_word a) = .ok v := by
  obtain ⟨m', hw, hr, _⟩ := write_read_word m a v ha h1 h2 hv
  rw [hw, ok_bind, hr]

/-- C5 witness: the round-trip evaluated at `addr = 0xC000`,
`value = 0xABCD`. -/
theorem c5_witness :
    (0xC000 < 0xFFFF ∧ mappedAddr 0xC000 ∧ mappedAddr (0xC000 + 1) ∧ 0xABCD < 65536) ∧
    (Memory.new.write_word 0xC000 0xABCD >>= fun m1 => m1.read_word 0xC000) = .ok 0xABCD :=
  ⟨⟨by decide, by decide, by decide, by decide⟩,
    c5_write_read_word_roundtrip Memory.new 0xC000 0xABCD (by decide) (by decide)
      (by decide) (by decide)⟩

/-- C5 counterexample: at `addr = 0xE000` (echo RAM) the write panics, so
the round-trip does not return the value for all `u16` addresses. -/
theorem c5_counterexample :
    (Memory.new.write_word 0xE000 0xABCD >>= fun m1 => m1.read_word 0xE000)
      = .error .echoRamPanic := by
  decide

/-- C6 (amended): every address in `[0, 0xFFFF]` outside the hole
`0xFEA0`–`0xFEFF` belongs to exactly one named segment and never reaches the
final `Invalid adress` panic of `read_byte`/`write_byte`; addresses inside
the hole belong to no segment and always reach that panic.  As stated in the
spec — every address maps to a segment, the invalid-address branch is
unreachable — the claim fails on the hole (see the counterexample). -/
theorem c6_segment_routing (a : Nat) (ha : a ≤ 0xFFFF) :
    (¬(0xFEA0 ≤ a ∧ a ≤ 0xFEFF) →
      (∃! s : Segment, s.contains a) ∧
      ∀ (m : Memory) (v : Nat),
        m.read_byte a ≠ .error .invalidAddressPanic ∧
        m.write_byte a v ≠ .error .invalidAddressPanic) ∧
    ((0xFEA0 ≤ a ∧ a ≤ 0xFEFF) →
      (∀ s : Segment, ¬ s.contains a) ∧
      ∀ (m : Memory) (v : Nat),
        m.read_byte a = .error .invalidAddressPanic ∧
        m.write_byte a v = .error .invalidAddressPanic) := by
  constructor
  · intro hng
    have hd : a ≤ 0x3FFF ∨ (0x4000 ≤ a ∧ a ≤ 0x7FFF) ∨ (0x8000 ≤ a ∧ a ≤ 0x9FFF) ∨
        (0xA000 ≤ a ∧ a ≤ 0xBFFF) ∨ (0xC000 ≤ a ∧ a ≤ 0xCFFF) ∨
        (0xD000 ≤ a ∧ a ≤ 0xDFFF) ∨ (0xE000 ≤ a ∧ a ≤ 0xFDFF) ∨
        (0xFE00 ≤ a ∧ a ≤ 0xFE9F) ∨ (0xFF00 ≤ a ∧ a ≤ 0xFF7F) ∨
        (0xFF80 ≤ a ∧ a ≤ 0xFFFE) ∨ a = 0xFFFF := by omega
    constructor
    · rcases hd with h | h | h | h | h | h | h | h | h | h | h <;>
        first
        | exact ⟨.rom00, by simp only [Segment.contains]; omega,
            fun y hy => by
              cases y <;> simp only [Segment.contains] at hy <;>
                first | rfl | (exfalso; omega)⟩
        | exact ⟨.romNN, by simp only [Segment.contains]; omega,
            fun y hy => by
              cases y <;> simp only [Segment.contains] at hy <;>
                first | rfl | (exfalso; omega)⟩
        | exact ⟨.vram, by simp only [Segment.contains]; omega,
            fun y hy => by
              cases y <;> simp only [Segment.contains] at hy <;>
                first | rfl | (exfalso; omega)⟩
        | exact ⟨.exram, by simp only [Segment.contains]; omega,
            fun y hy => by
              cases y <;> simp only [Segment.contains] at hy <;>
                first | rfl | (exfalso; omega)⟩
        | exact ⟨.wram0, by simp only [Segment.contains]; omega,
            fun y hy => by
              cases y <;> simp only [Segment.contains] at hy <;>
                first | rfl | (exfalso; omega)⟩
        | exact ⟨.wramNN, by simp only [Segment.contains]; omega,
            fun y hy => by
              cases y <;> simp only [Segment.contains] at hy <;>
                first | rfl | (exfalso; omega)⟩
        | exact ⟨.echo, by simp only [Segment.contains]; omega,
            fun y hy => by
              cases y <;> simp only [Segment.contains] at hy <;>
                first | rfl | (exfalso; omega)⟩
        | exact ⟨.oam, by simp only [Segment.contains]; omega,
            fun y hy => by
              cases y <;> simp only [Segment.contains] at hy <;>
                first | rfl | (exfalso; omega)⟩
        | exact ⟨.io, by simp only [Segment.contains]; omega,
            fun y hy => by
              cases y <;> simp only [Segment.contains] at hy <;>
                first | rfl | (exfalso; omega)⟩
        | exact ⟨.hram, by simp only [Segment.contains]; omega,
            fun y hy => by
              cases y <;> simp only [Segment.contains] at hy <;>
                first | rfl | (exfalso; omega)⟩
        | exact ⟨.ie, by simp only [Segment.contains]; omega,
            fun y hy => by
              cases y <;> simp only [Segment.contains] at hy <;>
                first | rfl | (exfalso; omega)⟩
    · intro m v
      constructor <;>
        rcases hd with h | h | h | h | h | h | h | h | h | h | h <;>
          first
          | (rw [read_byte_rom00 _ a (by omega)]; simp)
          | (rw [read_byte_romNN _ a (by omega) (by omega)]; simp)
          | (rw [read_byte_vram _ a (by omega) (by omega)]; simp)
          | (rw [read_byte_exram _ a (by omega) (by omega)]; simp)
          | (rw [read_byte_wram0 _ a (by omega) (by omega)]; simp)
          | (rw [read_byte_wramNN _ a (by omega) (by omega)]; simp)
          | (rw [read_byte_echo _ a (by omega) (by omega)]; simp)
          | (rw [read_byte_oam _ a (by omega) (by omega)]; simp)
          | (rw [read_byte_io _ a (by omega) (by omega)]; simp)
          | (rw [read_byte_hram _ a (by omega) (by omega)]; simp)
          | (rw [read_byte_ie _ a (by omega)]; simp)
          | (rw [write_byte_rom00 _ a _ (by omega)]; simp)
          | (rw [write_byte_romNN _ a _ (by omega) (by omega)]; simp)
          | (rw [write_byte_vram _ a _ (by omega) (by omega)]; simp)
          | (rw [write_byte_exram _ a _ (by omega) (by omega)]; simp)
          | (rw [write_byte_wram0 _ a _ (by omega) (by omega)]; simp)
          | (rw [write_byte_wramNN _ a _ (by omega) (by omega)]; simp)
          | (rw [write_byte_echo _ a _ (by omega) (by omega)]; simp)
          | (rw [write_byte_oam _ a _ (by omega) (by omega)]; simp)
          | (rw [write_byte_io _ a _ (by omega) (by omega)]; simp)
          | (rw [write_byte_hram _ a _ (by omega) (by omega)]; simp)
          | (rw [write_byte_ie _ a _ (by omega)]; simp)
  · intro hgap
    constructor
    · intro s
      cases s <;> simp only [Segment.contains] <;> omega
    · intro m v
      exact ⟨read_byte_invalid m a (by omega) (by omega),
        write_byte_invalid m a v (by omega) (by omega)⟩

/-- C6 witness: address `0x8123` (VRAM) lies in exactly one segment. -/
theorem c6_witness :
    (0x8123 ≤ 0xFFFF ∧ ¬(0xFEA0 ≤ 0x8123 ∧ 0x8123 ≤ 0xFEFF)) ∧
    (∃! s : Segment, s.contains 0x8123) :=
  ⟨⟨by decide, by decide⟩, ((c6_segment_routing 0x8123 (by decide)).1 (by decide)).1⟩

/-- C6 counterexample: address `0xFEA0` belongs to no segment, and
`read_byte` reaches the `Invalid adress` panic there. -/
theorem c6_counterexample :
    (∀ s : Segment, ¬ s.contains 0xFEA0) ∧
    Memory.new.read_byte 0xFEA0 = .error .invalidAddressPanic := by
  constructor
  · intro s
    cases s <;> simp only [Segment.contains] <;> omega
  · decide

/-- The branch-condition test shared by the four conditional instruction
families (`JR cond` / `RET cond` / `JP cond` / `CALL cond` each inline the
same four-way match on Z and C). -/
def condHolds (c : Cond) (r : Registers) : Bool :=
  match c with
  | .Zero => r.read_flag .Z == 1
  | .NotZero => r.read_flag .Z == 0
  | .Carry => r.read_flag .C == 1
  | .NotCarry => r.read_flag .C == 0

/-- C9: conditional cycle asymmetry.  When the condition is false,
`JR cond,e8` costs 2 cycles and `RET cond` 2, `JP cond` 3, `CALL cond` 3,
all leaving registers and memory untouched (in particular `JR` leaves PC
unchanged).  When the condition is true, `JR cond,e8` costs 3 cycles and
adds the sign-extended offset to PC (mod 65536, via
`wrapping_add_signed16`), and any successful taken `RET cond` / `JP cond` /
`CALL cond` costs 5 / 4 / 6 cycles.  The untaken path is strictly cheaper
in every family: 2 < 3, 2 < 5, 3 < 4, 3 < 6. -/
theorem c9_conditional_cycles (c : Cond) (r : Registers) (m : Memory) (b imm : Nat) :
    (condHolds c r = false →
      (Instruction.JrCondImm8 c b).execute r m = .ok (2, r, m) ∧
      (Instruction.RetCond c).execute r m = .ok (2, r, m) ∧
      (Instruction.JpCondImm16 c imm).execute r m = .ok (3, r, m) ∧
      (Instruction.CallCondImm16 c imm).execute r m = .ok (3, r, m)) ∧
    (condHolds c r = true →
      (Instruction.JrCondImm8 c b).execute r m
        = .ok (3, r.write_16 .PC (wrapping_add_signed16 (r.read_16 .PC) b), m) ∧
      (∀ out, (Instruction.RetCond c).execute r m = .ok out → out.1 = 5) ∧
      (∀ out, (Instruction.JpCondImm16 c imm).execute r m = .ok out → out.1 = 4) ∧
      (∀ out, (Instruction.CallCondImm16 c imm).execute r m = .ok out → out.1 = 6)) ∧
    (2 < 3 ∧ 2 < 5 ∧ 3 < 4 ∧ 3 < 6) := by
  refine ⟨?_, ?_, by omega⟩
  · intro hc
    cases c <;> simp only [condHolds] at hc <;>
      exact ⟨by simp [Instruction.execute, hc, pure_eq_ok],
        by simp [Instruction.execute, hc, pure_eq_ok],
        by simp [Instruction.execute, hc, pure_eq_ok],
        by simp [Instruction.execute, hc, pure_eq_ok]⟩
  · intro hc
    refine ⟨?_, ?_, ?_, ?_⟩
    · cases c <;> simp only [condHolds] at hc <;>
        simp [Instruction.execute, hc, pure_eq_ok]
    · intro out hout
      cases c <;> simp only [condHolds] at hc <;>
        simp only [Instruction.execute] at hout <;>
        rw [hc] at hout <;> simp at hout <;>
        rcases hp : stack_pop_16 r m with e | p <;> rw [hp] at hout <;>
        first
        | (rw [map_error] at hout
           exact absurd hout (by simp))
        | (rw [map_ok] at hout
           injection hout with hout
           exact (congrArg Prod.fst hout).symm)
    · intro out hout
      cases c <;> simp only [condHolds] at hc <;>
        simp only [Instruction.execute] at hout <;>
        rw [hc] at hout <;> simp at hout <;>
        rw [pure_eq_ok] at hout <;>
        injection hout with hout <;>
        exact (congrArg Prod.fst hout).symm
    · intro out hout
      cases c <;> simp only [condHolds] at hc <;>
        simp only [Instruction.execute] at hout <;>
        rw [hc] at hout <;> simp at hout <;>
        rcases hp : stack_push_16 r m (r.read_16 .PC) with e | p <;> rw [hp] at hout <;>
        first
        | (rw [map_error] at hout
           exact absurd hout (by simp))
        | (rw [map_ok] at hout
           injection hout with hout
           exact (congrArg Prod.fst hout).symm)

/-- C9 witness: `JR Z,+10` from PC = 0x100 — with Z = 0 it returns 2 cycles
and the unchanged state; with Z = 1 it returns 3 cycles and the offset added
to PC. -/
theorem c9_witness :
    (Instruction.JrCondImm8 .Zero 10).execute (Registers.new 0 0 0 0 0 0x100) Memory.new
      = .ok (2, Registers.new 0 0 0 0 0 0x100, Memory.new) ∧
    (Instruction.JrCondImm8 .Zero 10).execute (Registers.new 1 0 0 0 0 0x100) Memory.new
      = .ok (3, (Registers.new 1 0 0 0 0 0x100).write_16 .PC
          (wrapping_add_signed16 ((Registers.new 1 0 0 0 0 0x100).read_16 .PC) 10),
            Memory.new) :=
  ⟨((c9_conditional_cycles .Zero (Registers.new 0 0 0 0 0 0x100) Memory.new 10 0).1
      (by decide)).1,
   ((c9_conditional_cycles .Zero (Registers.new 1 0 0 0 0 0x100) Memory.new 10 0).2.1
      (by decide)).1⟩

/-- C10 (amended): `PUSH r16` followed by `POP r16` on the same register
pair restores the pair and returns SP to its original value, with SP
decreased by exactly 2 after the push and increased by exactly 2 by the pop
— for every state whose SP is at least 2 and whose two stack bytes
(`SP - 2`, `SP - 1`) lie in a mapped segment.  As stated in the spec — for
every state — the claim fails when the stack points into echo RAM, where the
push panics (see the counterexample), and at SP < 2, where the `sp - 2`
computation overflow-panics in debug builds. -/
theorem c10_push_pop_roundtrip (reg : R16STK) (s : Registers) (m : Memory)
    (hsp : 2 ≤ s.read_16 .SP)
    (h1 : mappedAddr (s.read_16 .SP - 2)) (h2 : mappedAddr (s.read_16 .SP - 1)) :
    ∃ s1 m' s2,
      (Instruction.PushR16Stk reg).execute s m = .ok (4, s1, m') ∧
      s1.read_16 .SP = s.read_16 .SP - 2 ∧
      (Instruction.PopR16Stk reg).execute s1 m' = .ok (3, s2, m') ∧
      s2.read_16 (Register16.fromR16STK reg) = s.read_16 (Register16.fromR16STK reg) ∧
      s2.read_16 .SP = s.read_16 .SP := by
  have hsplt : s.read_16 .SP < 65536 := read_16_lt s .SP
  have hvlt : s.read_16 (Register16.fromR16STK reg) < 65536 := read_16_lt s _
  have hsub : checkedSub16 (s.read_16 .SP) 2 = .ok (s.read_16 .SP - 2) := by
    unfold checkedSub16
    rw [if_pos hsp]
  obtain ⟨m', hw, hr, _⟩ := write_read_word m (s.read_16 .SP - 2)
    (s.read_16 (Register16.fromR16STK reg)) (by omega) h1
    (by rw [(by omega : s.read_16 .SP - 2 + 1 = s.read_16 .SP - 1)]; exact h2) hvlt
  have hs1 : (s.write_16 .SP (s.read_16 .SP - 2)).read_16 .SP = s.read_16 .SP - 2 := by
    simp only [Registers.write_16, Registers.read_16]
    omega
  have hadd : checkedAdd16 (s.read_16 .SP - 2) 2 = .ok (s.read_16 .SP - 2 + 2) := by
    unfold checkedAdd16
    rw [if_pos (by omega)]
  refine ⟨s.write_16 .SP (s.read_16 .SP - 2), m',
    ((s.write_16 .SP (s.read_16 .SP - 2)).write_16 .SP
        (s.read_16 .SP - 2 + 2)).write_16 (Register16.fromR16STK reg)
      (s.read_16 (Register16.fromR16STK reg)), ?_, hs1, ?_, ?_, ?_⟩
  · simp only [Instruction.execute, stack_push_16, hsub, ok_bind, hw, pure_eq_ok]
  · simp only [Instruction.execute, stack_pop_16, hs1, hr, ok_bind, hadd, pure_eq_ok]
  · cases reg <;>
      simp only [Register16.fromR16STK, Registers.write_16, Registers.read_16] <;>
      omega
  · have hsp' : 2 ≤ s.sp % 65536 := by
      simpa only [Registers.read_16] using hsp
    cases reg <;>
      simp only [Register16.fromR16STK, Registers.write_16, Registers.read_16] <;>
      omega

/-- C10 witness: `PUSH BC` then `POP BC` at SP = 0xFFFE with BC = 0x1234. -/
theorem c10_witness :
    (2 ≤ (Registers.new 0 0x1234 0 0 0xFFFE 0).read_16 .SP ∧
      mappedAddr ((Registers.new 0 0x1234 0 0 0xFFFE 0).read_16 .SP - 2) ∧
      mappedAddr ((Registers.new 0 0x1234 0 0 0xFFFE 0).read_16 .SP - 1)) ∧
    ∃ s1 m' s2,
      (Instruction.PushR16Stk .BC).execute (Registers.new 0 0x1234 0 0 0xFFFE 0) Memory.new
        = .ok (4, s1, m') ∧
      s1.read_16 .SP = (Registers.new 0 0x1234 0 0 0xFFFE 0).read_16 .SP - 2 ∧
      (Instruction.PopR16Stk .BC).execute s1 m' = .ok (3, s2, m') ∧
      s2.read_16 (Register16.fromR16STK .BC)
        = (Registers.new 0 0x1234 0 0 0xFFFE 0).read_16 (Register16.fromR16STK .BC) ∧
      s2.read_16 .SP = (Registers.new 0 0x1234 0 0 0xFFFE 0).read_16 .SP :=
  ⟨⟨by decide, by decide, by decide⟩,
   c10_push_pop_roundtrip .BC (Registers.new 0 0x1234 0 0 0xFFFE 0) Memory.new
     (by decide) (by decide) (by decide)⟩

/-- C10 counterexample: with SP = 0xE002 the push's stack bytes fall in echo
RAM and `PUSH BC` panics, so the push-then-pop round trip does not hold for
every state (nothing is pushed and SP is not decremented — the instruction
aborts). -/
theorem c10_counterexample :
    ((Instruction.PushR16Stk .BC).execute (Registers.new 0 0x1234 0 0 0xE002 0)
        Memory.new).map (fun out => out.1)
      = .error .echoRamPanic := by
  decide

theorem read_byte_lt (m : Memory) (a x : Nat) (h : m.read_byte a = .ok x) :
    x < 256 := by
  have hz : a ≤ 0x3FFF ∨ (0x4000 ≤ a ∧ a ≤ 0x7FFF) ∨ (0x8000 ≤ a ∧ a ≤ 0x9FFF) ∨
      (0xA000 ≤ a ∧ a ≤ 0xBFFF) ∨ (0xC000 ≤ a ∧ a ≤ 0xCFFF) ∨
      (0xD000 ≤ a ∧ a ≤ 0xDFFF) ∨ (0xE000 ≤ a ∧ a ≤ 0xFDFF) ∨
      (0xFE00 ≤ a ∧ a ≤ 0xFE9F) ∨ (0xFF00 ≤ a ∧ a ≤ 0xFF7F) ∨
      (0xFF80 ≤ a ∧ a ≤ 0xFFFE) ∨ a = 0xFFFF ∨
      (0xFEA0 ≤ a ∧ (a ≤ 0xFEFF ∨ 0x10000 ≤ a)) := by omega
  rcases hz with hz | hz | hz | hz | hz | hz | hz | hz | hz | hz | hz | hz <;>
    first
    | (rw [read_byte_echo _ a (by omega) (by omega)] at h
       exact Except.noConfusion h)
    | (rw [read_byte_invalid _ a (by omega) (by omega)] at h
       exact Except.noConfusion h)
    | (rw [read_byte_rom00 _ a (by omega)] at h
       injection h with h
       omega)
    | (rw [read_byte_romNN _ a (by omega) (by omega)] at h
       injection h with h
       omega)
    | (rw [read_byte_vram _ a (by omega) (by omega)] at h
       injection h with h
       omega)
    | (rw [read_byte_exram _ a (by omega) (by omega)] at h
       injection h with h
       omega)
    | (rw [read_byte_wram0 _ a (by omega) (by omega)] at h
       injection h with h
       omega)
    | (rw [read_byte_wramNN _ a (by omega) (by omega)] at h
       injection h with h
       omega)
    | (rw [read_byte_oam _ a (by omega) (by omega)] at h
       injection h with h
       omega)
    | (rw [read_byte_io _ a (by omega) (by omega)] at h
       injection h with h
       omega)
    | (rw [read_byte_hram _ a (by omega) (by omega)] at h
       injection h with h
       omega)
    | (rw [read_byte_ie _ a (by omega)] at h
       injection h with h
       omega)

theorem fetch_byte_spec (m : Memory) (r : Registers) (b : Nat) (r1 : Registers)
    (h : fetch_byte m r = .ok (b, r1)) :
    r1 = { r with pc := r.pc + 1 } ∧ b < 256 ∧ r.pc + 1 ≤ 65535 ∧
      m.read_byte r.pc = .ok b := by
  unfold fetch_byte at h
  rcases hx : m.read_byte r.pc with e | byte
  · rw [hx, error_bind] at h
    exact Except.noConfusion h
  · rw [hx, ok_bind] at h
    simp only [checkedAdd16] at h
    by_cases hpc : r.pc + 1 ≤ 65535
    · rw [if_pos hpc, ok_bind, pure_eq_ok] at h
      injection h with h
      injection h with hb hr
      subst hb
      subst hr
      exact ⟨rfl, read_byte_lt m r.pc byte hx, hpc, rfl⟩
    · rw [if_neg hpc, error_bind] at h
      exact Except.noConfusion h

theorem fetch_word_spec (m : Memory) (r : Registers) (w : Nat) (r2 : Registers)
    (h : fetch_word m r = .ok (w, r2)) :
    r2 = { r with pc := r.pc + 2 } := by
  unfold fetch_word at h
  rcases hx : m.read_word r.pc with e | word
  · rw [hx, error_bind] at h
    exact Except.noConfusion h
  · rw [hx, ok_bind] at h
    simp only [checkedAdd16] at h
    by_cases hpc : r.pc + 2 ≤ 65535
    · rw [if_pos hpc, ok_bind, pure_eq_ok] at h
      injection h with h
      injection h with hw hr
      exact hr.symm
    · rw [if_neg hpc, error_bind] at h
      exact Except.noConfusion h

theorem cb_len (b : Nat) (i : Instruction)
    (h : map_prefixed_instruction b = .ok i) : instrLength i = 2 := by
  delta map_prefixed_instruction at h
  dsimp only at h
  by_cases hc : b / 64 = 0 ∧ b / 8 % 8 = 0 ∧ b % 8 = 6
  · rw [if_pos hc, pure_eq_ok] at h
    injection h with h
    subst h
    rfl
  rw [if_neg hc] at h
  by_cases hc : b / 64 = 0 ∧ b / 8 % 8 = 0
  · rw [if_pos hc] at h
    rcases hcv : R8.fromNat (b % 8) with e | cv <;> rw [hcv] at h
    · rw [error_bind] at h
      exact Except.noConfusion h
    · rw [ok_bind, pure_eq_ok] at h
      injection h with h
      subst h
      rfl
  rw [if_neg hc] at h
  by_cases hc : b / 64 = 0 ∧ b / 8 % 8 = 1 ∧ b % 8 = 6
  · rw [if_pos hc, pure_eq_ok] at h
    injection h with h
    subst h
    rfl
  rw [if_neg hc] at h
  by_cases hc : b / 64 = 0 ∧ b / 8 % 8 = 1
  · rw [if_pos hc] at h
    rcases hcv : R8.fromNat (b % 8) with e | cv <;> rw [hcv] at h
    · rw [error_bind] at h
      exact Except.noConfusion h
    · rw [ok_bind, pure_eq_ok] at h
      injection h with h
      subst h
      rfl
  rw [if_neg hc] at h
  by_cases hc : b / 64 = 0 ∧ b / 8 % 8 = 2 ∧ b % 8 = 6
  · rw [if_pos hc, pure_eq_ok] at h
    injection h with h
    subst h
    rfl
  rw [if_neg hc] at h
  by_cases hc : b / 64 = 0 ∧ b / 8 % 8 = 2
  · rw [if_pos hc] at h
    rcases hcv : R8.fromNat (b % 8) with e | cv <;> rw [hcv] at h
    · rw [error_bind] at h
      exact Except.noConfusion h
    · rw [ok_bind, pure_eq_ok] at h
      injection h with h
      subst h
      rfl
  rw [if_neg hc] at h
  by_cases hc : b / 64 = 0 ∧ b / 8 % 8 = 3 ∧ b % 8 = 6
  · rw [if_pos hc, pure_eq_ok] at h
    injection h with h
    subst h
    rfl
  rw [if_neg hc] at h
  by_cases hc : b / 64 = 0 ∧ b / 8 % 8 = 3
  · rw [if_pos hc] at h
    rcases hcv : R8.fromNat (b % 8) with e | cv <;> rw [hcv] at h
    · rw [error_bind] at h
      exact Except.noConfusion h
    · rw [ok_bind, pure_eq_ok] at h
      injection h with h
      subst h
      rfl
  rw [if_neg hc] at h
  by_cases hc : b / 64 = 0 ∧ b / 8 % 8 = 4 ∧ b % 8 = 6
  · rw [if_pos hc, pure_eq_ok] at h
    injection h with h
    subst h
    rfl
  rw [if_neg hc] at h
  by_cases hc : b / 64 = 0 ∧ b / 8 % 8 = 4
  · rw [if_pos hc] at h
    rcases hcv : R8.fromNat (b % 8) with e | cv <;> rw [hcv] at h
    · rw [error_bind] at h
      exact Except.noConfusion h
    · rw [ok_bind, pure_eq_ok] at h
      injection h with h
      subst h
      rfl
  rw [if_neg hc] at h
  by_cases hc : b / 64 = 0 ∧ b / 8 % 8 = 5 ∧ b % 8 = 6
  · rw [if_pos hc, pure_eq_ok] at h
    injection h with h
    subst h
    rfl
  rw [if_neg hc] at h
  by_cases hc : b / 64 = 0 ∧ b / 8 % 8 = 5
  · rw [if_pos hc] at h
    rcases hcv : R8.fromNat (b % 8) with e | cv <;> rw [hcv] at h
    · rw [error_bind] at h
      exact Except.noConfusion h
    · rw [ok_bind, pure_eq_ok] at h
      injection h with h
      subst h
      rfl
  rw [if_neg hc] at h
  by_cases hc : b / 64 = 0 ∧ b / 8 % 8 = 6 ∧ b % 8 = 6
  · rw [if_pos hc, pure_eq_ok] at h
    injection h with h
    subst h
    rfl
  rw [if_neg hc] at h
  by_cases hc : b / 64 = 0 ∧ b / 8 % 8 = 6
  · rw [if_pos hc] at h
    rcases hcv : R8.fromNat (b % 8) with e | cv <;> rw [hcv] at h
    · rw [error_bind] at h
      exact Except.noConfusion h
    · rw [ok_bind, pure_eq_ok] at h
      injection h with h
      subst h
      rfl
  rw [if_neg hc] at h
  by_cases hc : b / 64 = 0 ∧ b / 8 % 8 = 7 ∧ b % 8 = 6
  · rw [if_pos hc, pure_eq_ok] at h
    injection h with h
    subst h
    rfl
  rw [if_neg hc] at h
  by_cases hc : b / 64 = 0 ∧ b / 8 % 8 = 7
  · rw [if_pos hc] at h
    rcases hcv : R8.fromNat (b % 8) with e | cv <;> rw [hcv] at h
    · rw [error_bind] at h
      exact Except.noConfusion h
    · rw [ok_bind, pure_eq_ok] at h
      injection h with h
      subst h
      rfl
  rw [if_neg hc] at h
  by_cases hc : b / 64 = 1 ∧ b % 8 = 6
  · rw [if_pos hc] at h
    rcases hcv : B3.fromNat (b / 8 % 8) with e | cv <;> rw [hcv] at h
    · rw [error_bind] at h
      exact Except.noConfusion h
    · rw [ok_bind, pure_eq_ok] at h
      injection h with h
      subst h
      rfl
  rw [if_neg hc] at h
  by_cases hc : b / 64 = 1
  · rw [if_pos hc] at h
    rcases hcv : B3.fromNat (b / 8 % 8) with e | cv <;> rw [hcv] at h
    · rw [error_bind] at h
      exact Except.noConfusion h
    · rw [ok_bind] at h
      rcases hcv2 : R8.fromNat (b % 8) with e2 | cv2 <;> rw [hcv2] at h
      · rw [error_bind] at h
        exact Except.noConfusion h
      · rw [ok_bind, pure_eq_ok] at h
        injection h with h
        subst h
        rfl
  rw [if_neg hc] at h
  by_cases hc : b / 64 = 2 ∧ b % 8 = 6
  · rw [if_pos hc] at h
    rcases hcv : B3.fromNat (b / 8 % 8) with e | cv <;> rw [hcv] at h
    · rw [error_bind] at h
      exact Except.noConfusion h
    · rw [ok_bind, pure_eq_ok] at h
      injection h with h
      subst h
      rfl
  rw [if_neg hc] at h
  by_cases hc : b / 64 = 2
  · rw [if_pos hc] at h
    rcases hcv : B3.fromNat (b / 8 % 8) with e | cv <;> rw [hcv] at h
    · rw [error_bind] at h
      exact Except.noConfusion h
    · rw [ok_bind] at h
      rcases hcv2 : R8.fromNat (b % 8) with e2 | cv2 <;> rw [hcv2] at h
      · rw [error_bind] at h
        exact Except.noConfusion h
      · rw [ok_bind, pure_eq_ok] at h
        injection h with h
        subst h
        rfl
  rw [if_neg hc] at h
  by_cases hc : b / 64 = 3 ∧ b % 8 = 6
  · rw [if_pos hc] at h
    rcases hcv : B3.fromNat (b / 8 % 8) with e | cv <;> rw [hcv] at h
    · rw [error_bind] at h
      exact Except.noConfusion h
    · rw [ok_bind, pure_eq_ok] at h
      injection h with h
      subst h
      rfl
  rw [if_neg hc] at h
  by_cases hc : b / 64 = 3
  · rw [if_pos hc] at h
    rcases hcv : B3.fromNat (b / 8 % 8) with e | cv <;> rw [hcv] at h
    · rw [error_bind] at h
      exact Except.noConfusion h
    · rw [ok_bind] at h
      rcases hcv2 : R8.fromNat (b % 8) with e2 | cv2 <;> rw [hcv2] at h
      · rw [error_bind] at h
        exact Except.noConfusion h
      · rw [ok_bind, pure_eq_ok] at h
        injection h with h
        subst h
        rfl
  rw [if_neg hc] at h
  exact Except.noConfusion h

/-- C7: PC advance.  Whenever `fetch_instruction` succeeds, the new PC is
exactly the old PC plus the instruction's encoded length: 1 plus its 0, 1
or 2 immediate operand bytes, and exactly 2 for every CB-prefixed
instruction (`instrLength` assigns 2 to all CB variants and `cb_len` shows
the CB sub-decoder only produces such variants). -/
theorem c7_pc_advance (m : Memory) (r : Registers) (inst : Instruction)
    (r' : Registers) (h : fetch_instruction m r = .ok (inst, r')) :
    r'.pc = r.pc + instrLength inst := by
  delta fetch_instruction at h
  rcases hfb : fetch_byte m r with e | p <;> rw [hfb] at h
  · rw [error_bind] at h
    exact Except.noConfusion h
  obtain ⟨opcode, r1⟩ := p
  rw [ok_bind] at h
  obtain ⟨hr1, hblt, hpcb, hrb⟩ := fetch_byte_spec m r opcode r1 hfb
  subst hr1
  dsimp only at h
  by_cases hc : opcode / 64 = 0 ∧ opcode / 16 % 4 = 0 ∧ opcode % 16 = 0
  · rw [if_pos hc] at h
    rw [pure_eq_ok] at h
    injection h with h
    injection h with hI hR
    subst hI
    subst hR
    rfl
  rw [if_neg hc] at h
  by_cases hc : opcode / 64 = 0 ∧ opcode % 16 = 1
  · rw [if_pos hc] at h
    rcases hcv : R16.fromNat (opcode / 16 % 4) with ec | cv <;> rw [hcv] at h
    · rw [error_bind] at h
      exact Except.noConfusion h
    · rw [ok_bind] at h
      rcases hf2 : fetch_word m { r with pc := r.pc + 1 } with e2 | p2 <;> rw [hf2] at h
      · rw [error_bind] at h
        exact Except.noConfusion h
      · obtain ⟨w2, r2⟩ := p2
        have hr2 := fetch_word_spec m _ w2 r2 hf2
        subst hr2
        rw [ok_bind] at h
        dsimp only at h
        rw [pure_eq_ok] at h
        injection h with h
        injection h with hI hR
        subst hI
        subst hR
        rfl
  rw [if_neg hc] at h
  by_cases hc : opcode / 64 = 0 ∧ opcode % 16 = 2
  · rw [if_pos hc] at h
    rcases hcv : R16MEM.fromNat (opcode / 16 % 4) with ec | cv <;> rw [hcv] at h
    · rw [error_bind] at h
      exact Except.noConfusion h
    · rw [ok_bind] at h
      rw [pure_eq_ok] at h
      injection h with h
      injection h with hI hR
      subst hI
      subst hR
      rfl
  rw [if_neg hc] at h
  by_cases hc : opcode / 64 = 0 ∧ opcode % 16 = 10
  · rw [if_pos hc] at h
    rcases hcv : R16MEM.fromNat (opcode / 16 % 4) with ec | cv <;> rw [hcv] at h
    · rw [error_bind] at h
      exact Except.noConfusion h
    · rw [ok_bind] at h
      rw [pure_eq_ok] at h
      injection h with h
      injection h with hI hR
      subst hI
      subst hR
      rfl
  rw [if_neg hc] at h
  by_cases hc : opcode / 64 = 0 ∧ opcode / 16 % 4 = 0 ∧ opcode % 16 = 8
  · rw [if_pos hc] at h
    rcases hf2 : fetch_word m { r with pc := r.pc + 1 } with e2 | p2 <;> rw [hf2] at h
    · rw [error_bind] at h
      exact Except.noConfusion h
    · obtain ⟨w2, r2⟩ := p2
      have hr2 := fetch_word_spec m _ w2 r2 hf2
      subst hr2
      rw [ok_bind] at h
      dsimp only at h
      rw [pure_eq_ok] at h
      injection h with h
      injection h with hI hR
      subst hI
      subst hR
      rfl
  rw [if_neg hc] at h
  by_cases hc : opcode / 64 = 0 ∧ opcode % 16 = 3
  · rw [if_pos hc] at h
    rcases hcv : R16.fromNat (opcode / 16 % 4) with ec | cv <;> rw [hcv] at h
    · rw [error_bind] at h
      exact Except.noConfusion h
    · rw [ok_bind] at h
      rw [pure_eq_ok] at h
      injection h with h
      injection h with hI hR
      subst hI
      subst hR
      rfl
  rw [if_neg hc] at h
  by_cases hc : opcode / 64 = 0 ∧ opcode % 16 = 11
  · rw [if_pos hc] at h
    rcases hcv : R16.fromNat (opcode / 16 % 4) with ec | cv <;> rw [hcv] at h
    · rw [error_bind] at h
      exact Except.noConfusion h
    · rw [ok_bind] at h
      rw [pure_eq_ok] at h
      injection h with h
      injection h with hI hR
      subst hI
      subst hR
      rfl
  rw [if_neg hc] at h
  by_cases hc : opcode / 64 = 0 ∧ opcode % 16 = 9
  · rw [if_pos hc] at h
    rcases hcv : R16.fromNat (opcode / 16 % 4) with ec | cv <;> rw [hcv] at h
    · rw [error_bind] at h
      exact Except.noConfusion h
    · rw [ok_bind] at h
      rw [pure_eq_ok] at h
      injection h with h
      injection h with hI hR
      subst hI
      subst hR
      rfl
  rw [if_neg hc] at h
  by_cases hc : opcode / 64 = 0 ∧ opcode / 8 % 8 = 6 ∧ opcode % 8 = 4
  · rw [if_pos hc] at h
    rw [pure_eq_ok] at h
    injection h with h
    injection h with hI hR
    subst hI
    subst hR
    rfl
  rw [if_neg hc] at h
  by_cases hc : opcode / 64 = 0 ∧ opcode % 8 = 4
  · rw [if_pos hc] at h
    rcases hcv : R8.fromNat (opcode / 8 % 8) with ec | cv <;> rw [hcv] at h
    · rw [error_bind] at h
      exact Except.noConfusion h
    · rw [ok_bind] at h
      rw [pure_eq_ok] at h
      injection h with h
      injection h with hI hR
      subst hI
      subst hR
      rfl
  rw [if_neg hc] at h
  by_cases hc : opcode / 64 = 0 ∧ opcode / 8 % 8 = 6 ∧ opcode % 8 = 5
  · rw [if_pos hc] at h
    rw [pure_eq_ok] at h
    injection h with h
    injection h with hI hR
    subst hI
    subst hR
    rfl
  rw [if_neg hc] at h
  by_cases hc : opcode / 64 = 0 ∧ opcode % 8 = 5
  · rw [if_pos hc] at h
    rcases hcv : R8.fromNat (opcode / 8 % 8) with ec | cv <;> rw [hcv] at h
    · rw [error_bind] at h
      exact Except.noConfusion h
    · rw [ok_bind] at h
      rw [pure_eq_ok] at h
      injection h with h
      injection h with hI hR
      subst hI
      subst hR
      rfl
  rw [if_neg hc] at h
  by_cases hc : opcode / 64 = 0 ∧ opcode / 8 % 8 = 6 ∧ opcode % 8 = 6
  · rw [if_pos hc] at h
    rcases hf2 : fetch_byte m { r with pc := r.pc + 1 } with e2 | p2 <;> rw [hf2] at h
    · rw [error_bind] at h
      exact Except.noConfusion h
    · obtain ⟨b2, r2⟩ := p2
      obtain ⟨hr2, hb2, hpc2, hrb2⟩ := fetch_byte_spec m _ b2 r2 hf2
      subst hr2
      rw [ok_bind] at h
      dsimp only at h
      rw [pure_eq_ok] at h
      injection h with h
      injection h with hI hR
      subst hI
      subst hR
      rfl
  rw [if_neg hc] at h
  by_cases hc : opcode / 64 = 0 ∧ opcode % 8 = 6
  · rw [if_pos hc] at h
    rcases hcv : R8.fromNat (opcode / 8 % 8) with ec | cv <;> rw [hcv] at h
    · rw [error_bind] at h
      exact Except.noConfusion h
    · rw [ok_bind] at h
      rcases hf2 : fetch_byte m { r with pc := r.pc + 1 } with e2 | p2 <;> rw [hf2] at h
      · rw [error_bind] at h
        exact Except.noConfusion h
      · obtain ⟨b2, r2⟩ := p2
        obtain ⟨hr2, hb2, hpc2, hrb2⟩ := fetch_byte_spec m _ b2 r2 hf2
        subst hr2
        rw [ok_bind] at h
        dsimp only at h
        rw [pure_eq_ok] at h
        injection h with h
        injection h with hI hR
        subst hI
        subst hR
        rfl
  rw [if_neg hc] at h
  by_cases hc : opcode / 64 = 0 ∧ opcode / 16 % 4 = 0 ∧ opcode % 16 = 7
  · rw [if_pos hc] at h
    rw [pure_eq_ok] at h
    injection h with h
    injection h with hI hR
    subst hI
    subst hR
    rfl
  rw [if_neg hc] at h
  by_cases hc : opcode / 64 = 0 ∧ opcode / 16 % 4 = 0 ∧ opcode % 16 = 15
  · rw [if_pos hc] at h
    rw [pure_eq_ok] at h
    injection h with h
    injection h with hI hR
    subst hI
    subst hR
    rfl
  rw [if_neg hc] at h
  by_cases hc : opcode / 64 = 0 ∧ opcode / 16 % 4 = 1 ∧ opcode % 16 = 7
  · rw [if_pos hc] at h
    rw [pure_eq_ok] at h
    injection h with h
    injection h with hI hR
    subst hI
    subst hR
    rfl
  rw [if_neg hc] at h
  by_cases hc : opcode / 64 = 0 ∧ opcode / 16 % 4 = 1 ∧ opcode % 16 = 15
  · rw [if_pos hc] at h
    rw [pure_eq_ok] at h
    injection h with h
    injection h with hI hR
    subst hI
    subst hR
    rfl
  rw [if_neg hc] at h
  by_cases hc : opcode / 64 = 0 ∧ opcode / 16 % 4 = 2 ∧ opcode % 16 = 7
  · rw [if_pos hc] at h
    rw [pure_eq_ok] at h
    injection h with h
    injection h with hI hR
    subst hI
    subst hR
    rfl
  rw [if_neg hc] at h
  by_cases hc : opcode / 64 = 0 ∧ opcode / 16 % 4 = 2 ∧ opcode % 16 = 15
  · rw [if_pos hc] at h
    rw [pure_eq_ok] at h
    injection h with h
    injection h with hI hR
    subst hI
    subst hR
    rfl
  rw [if_neg hc] at h
  by_cases hc : opcode / 64 = 0 ∧ opcode / 16 % 4 = 3 ∧ opcode % 16 = 7
  · rw [if_pos hc] at h
    rw [pure_eq_ok] at h
    injection h with h
    injection h with hI hR
    subst hI
    subst hR
    rfl
  rw [if_neg hc] at h
  by_cases hc : opcode / 64 = 0 ∧ opcode / 16 % 4 = 3 ∧ opcode % 16 = 15
  · rw [if_pos hc] at h
    rw [pure_eq_ok] at h
    injection h with h
    injection h with hI hR
    subst hI
    subst hR
    rfl
  rw [if_neg hc] at h
  by_cases hc : opcode / 32 = 0 ∧ opcode / 8 % 4 = 3 ∧ opcode % 8 = 0
  · rw [if_pos hc] at h
    rcases hf2 : fetch_byte m { r with pc := r.pc + 1 } with e2 | p2 <;> rw [hf2] at h
    · rw [error_bind] at h
      exact Except.noConfusion h
    · obtain ⟨b2, r2⟩ := p2
      obtain ⟨hr2, hb2, hpc2, hrb2⟩ := fetch_byte_spec m _ b2 r2 hf2
      subst hr2
      rw [ok_bind] at h
      dsimp only at h
      rw [pure_eq_ok] at h
      injection h with h
      injection h with hI hR
      subst hI
      subst hR
      rfl
  rw [if_neg hc] at h
  by_cases hc : opcode / 32 = 1 ∧ opcode % 8 = 0
  · rw [if_pos hc] at h
    rcases hcv : Cond.fromNat (opcode / 8 % 4) with ec | cv <;> rw [hcv] at h
    · rw [error_bind] at h
      exact Except.noConfusion h
    · rw [ok_bind] at h
      rcases hf2 : fetch_byte m { r with pc := r.pc + 1 } with e2 | p2 <;> rw [hf2] at h
      · rw [error_bind] at h
        exact Except.noConfusion h
      · obtain ⟨b2, r2⟩ := p2
        obtain ⟨hr2, hb2, hpc2, hrb2⟩ := fetch_byte_spec m _ b2 r2 hf2
        subst hr2
        rw [ok_bind] at h
        dsimp only at h
        rw [pure_eq_ok] at h
        injection h with h
        injection h with hI hR
        subst hI
        subst hR
        rfl
  rw [if_neg hc] at h
  by_cases hc : opcode / 64 = 0 ∧ opcode / 16 % 4 = 1 ∧ opcode % 16 = 0
  · rw [if_pos hc] at h
    rw [pure_eq_ok] at h
    injection h with h
    injection h with hI hR
    subst hI
    subst hR
    rfl
  rw [if_neg hc] at h
  by_cases hc : opcode / 64 = 1 ∧ opcode / 8 % 8 = 6 ∧ opcode % 8 = 6
  · rw [if_pos hc] at h
    rw [pure_eq_ok] at h
    injection h with h
    injection h with hI hR
    subst hI
    subst hR
    rfl
  rw [if_neg hc] at h
  by_cases hc : opcode / 64 = 1 ∧ opcode / 8 % 8 = 6
  · rw [if_pos hc] at h
    rcases hcv : R8.fromNat (opcode % 8) with ec | cv <;> rw [hcv] at h
    · rw [error_bind] at h
      exact Except.noConfusion h
    · rw [ok_bind] at h
      rw [pure_eq_ok] at h
      injection h with h
      injection h with hI hR
      subst hI
      subst hR
      rfl
  rw [if_neg hc] at h
  by_cases hc : opcode / 64 = 1 ∧ opcode % 8 = 6
  · rw [if_pos hc] at h
    rcases hcv : R8.fromNat (opcode / 8 % 8) with ec | cv <;> rw [hcv] at h
    · rw [error_bind] at h
      exact Except.noConfusion h
    · rw [ok_bind] at h
      rw [pure_eq_ok] at h
      injection h with h
      injection h with hI hR
      subst hI
      subst hR
      rfl
  rw [if_neg hc] at h
  by_cases hc : opcode / 64 = 1
  · rw [if_pos hc] at h
    rcases hcv : R8.fromNat (opcode / 8 % 8) with ec | cv <;> rw [hcv] at h
    · rw [error_bind] at h
      exact Except.noConfusion h
    · rw [ok_bind] at h
      rcases hcv2 : R8.fromNat (opcode % 8) with ec2 | cv2 <;> rw [hcv2] at h
      · rw [error_bind] at h
        exact Except.noConfusion h
      · rw [ok_bind] at h
        rw [pure_eq_ok] at h
        injection h with h
        injection h with hI hR
        subst hI
        subst hR
        rfl
  rw [if_neg hc] at h
  by_cases hc : opcode / 64 = 2 ∧ opcode / 8 % 8 = 0 ∧ opcode % 8 = 6
  · rw [if_pos hc] at h
    rw [pure_eq_ok] at h
    injection h with h
    injection h with hI hR
    subst hI
    subst hR
    rfl
  rw [if_neg hc] at h
  by_cases hc : opcode / 64 = 2 ∧ opcode / 8 % 8 = 0
  · rw [if_pos hc] at h
    rcases hcv : R8.fromNat (opcode % 8) with ec | cv <;> rw [hcv] at h
    · rw [error_bind] at h
      exact Except.noConfusion h
    · rw [ok_bind] at h
      rw [pure_eq_ok] at h
      injection h with h
      injection h with hI hR
      subst hI
      subst hR
      rfl
  rw [if_neg hc] at h
  by_cases hc : opcode / 64 = 2 ∧ opcode / 8 % 8 = 1 ∧ opcode % 8 = 6
  · rw [if_pos hc] at h
    rw [pure_eq_ok] at h
    injection h with h
    injection h with hI hR
    subst hI
    subst hR
    rfl
  rw [if_neg hc] at h
  by_cases hc : opcode / 64 = 2 ∧ opcode / 8 % 8 = 1
  · rw [if_pos hc] at h
    rcases hcv : R8.fromNat (opcode % 8) with ec | cv <;> rw [hcv] at h
    · rw [error_bind] at h
      exact Except.noConfusion h
    · rw [ok_bind] at h
      rw [pure_eq_ok] at h
      injection h with h
      injection h with hI hR
      subst hI
      subst hR
      rfl
  rw [if_neg hc] at h
  by_cases hc : opcode / 64 = 2 ∧ opcode / 8 % 8 = 2 ∧ opcode % 8 = 6
  · rw [if_pos hc] at h
    rw [pure_eq_ok] at h
    injection h with h
    injection h with hI hR
    subst hI
    subst hR
    rfl
  rw [if_neg hc] at h
  by_cases hc : opcode / 64 = 2 ∧ opcode / 8 % 8 = 2
  · rw [if_pos hc] at h
    rcases hcv : R8.fromNat (opcode % 8) with ec | cv <;> rw [hcv] at h
    · rw [error_bind] at h
      exact Except.noConfusion h
    · rw [ok_bind] at h
      rw [pure_eq_ok] at h
      injection h with h
      injection h with hI hR
      subst hI
      subst hR
      rfl
  rw [if_neg hc] at h
  by_cases hc : opcode / 64 = 2 ∧ opcode / 8 % 8 = 3 ∧ opcode % 8 = 6
  · rw [if_pos hc] at h
    rw [pure_eq_ok] at h
    injection h with h
    injection h with hI hR
    subst hI
    subst hR
    rfl
  rw [if_neg hc] at h
  by_cases hc : opcode / 64 = 2 ∧ opcode / 8 % 8 = 3
  · rw [if_pos hc] at h
    rcases hcv : R8.fromNat (opcode % 8) with ec | cv <;> rw [hcv] at h
    · rw [error_bind] at h
      exact Except.noConfusion h
    · rw [ok_bind] at h
      rw [pure_eq_ok] at h
      injection h with h
      injection h with hI hR
      subst hI
      subst hR
      rfl
  rw [if_neg hc] at h
  by_cases hc : opcode / 64 = 2 ∧ opcode / 8 % 8 = 4 ∧ opcode % 8 = 6
  · rw [if_pos hc] at h
    rw [pure_eq_ok] at h
    injection h with h
    injection h with hI hR
    subst hI
    subst hR
    rfl
  rw [if_neg hc] at h
  by_cases hc : opcode / 64 = 2 ∧ opcode / 8 % 8 = 4
  · rw [if_pos hc] at h
    rcases hcv : R8.fromNat (opcode % 8) with ec | cv <;> rw [hcv] at h
    · rw [error_bind] at h
      exact Except.noConfusion h
    · rw [ok_bind] at h
      rw [pure_eq_ok] at h
      injection h with h
      injection h with hI hR
      subst hI
      subst hR
      rfl
  rw [if_neg hc] at h
  by_cases hc : opcode / 64 = 2 ∧ opcode / 8 % 8 = 5 ∧ opcode % 8 = 6
  · rw [if_pos hc] at h
    rw [pure_eq_ok] at h
    injection h with h
    injection h with hI hR
    subst hI
    subst hR
    rfl
  rw [if_neg hc] at h
  by_cases hc : opcode / 64 = 2 ∧ opcode / 8 % 8 = 5
  · rw [if_pos hc] at h
    rcases hcv : R8.fromNat (opcode % 8) with ec | cv <;> rw [hcv] at h
    · rw [error_bind] at h
      exact Except.noConfusion h
    · rw [ok_bind] at h
      rw [pure_eq_ok] at h
      injection h with h
      injection h with hI hR
      subst hI
      subst hR
      rfl
  rw [if_neg hc] at h
  by_cases hc : opcode / 64 = 2 ∧ opcode / 8 % 8 = 6 ∧ opcode % 8 = 6
  · rw [if_pos hc] at h
    rw [pure_eq_ok] at h
    injection h with h
    injection h with hI hR
    subst hI
    subst hR
    rfl
  rw [if_neg hc] at h
  by_cases hc : opcode / 64 = 2 ∧ opcode / 8 % 8 = 6
  · rw [if_pos hc] at h
    rcases hcv : R8.fromNat (opcode % 8) with ec | cv <;> rw [hcv] at h
    · rw [error_bind] at h
      exact Except.noConfusion h
    · rw [ok_bind] at h
      rw [pure_eq_ok] at h
      injection h with h
      injection h with hI hR
      subst hI
      subst hR
      rfl
  rw [if_neg hc] at h
  by_cases hc : opcode / 64 = 2 ∧ opcode / 8 % 8 = 7 ∧ opcode % 8 = 6
  · rw [if_pos hc] at h
    rw [pure_eq_ok] at h
    injection h with h
    injection h with hI hR
    subst hI
    subst hR
    rfl
  rw [if_neg hc] at h
  by_cases hc : opcode / 64 = 2 ∧ opcode / 8 % 8 = 7
  · rw [if_pos hc] at h
    rcases hcv : R8.fromNat (opcode % 8) with ec | cv <;> rw [hcv] at h
    · rw [error_bind] at h
      exact Except.noConfusion h
    · rw [ok_bind] at h
      rw [pure_eq_ok] at h
      injection h with h
      injection h with hI hR
      subst hI
      subst hR
      rfl
  rw [if_neg hc] at h
  by_cases hc : opcode / 64 = 3 ∧ opcode / 16 % 4 = 0 ∧ opcode % 16 = 6
  · rw [if_pos hc] at h
    rcases hf2 : fetch_byte m { r with pc := r.pc + 1 } with e2 | p2 <;> rw [hf2] at h
    · rw [error_bind] at h
      exact Except.noConfusion h
    · obtain ⟨b2, r2⟩ := p2
      obtain ⟨hr2, hb2, hpc2, hrb2⟩ := fetch_byte_spec m _ b2 r2 hf2
      subst hr2
      rw [ok_bind] at h
      dsimp only at h
      rw [pure_eq_ok] at h
      injection h with h
      injection h with hI hR
      subst hI
      subst hR
      rfl
  rw [if_neg hc] at h
  by_cases hc : opcode / 64 = 3 ∧ opcode / 16 % 4 = 0 ∧ opcode % 16 = 14
  · rw [if_pos hc] at h
    rcases hf2 : fetch_byte m { r with pc := r.pc + 1 } with e2 | p2 <;> rw [hf2] at h
    · rw [error_bind] at h
      exact Except.noConfusion h
    · obtain ⟨b2, r2⟩ := p2
      obtain ⟨hr2, hb2, hpc2, hrb2⟩ := fetch_byte_spec m _ b2 r2 hf2
      subst hr2
      rw [ok_bind] at h
      dsimp only at h
      rw [pure_eq_ok] at h
      injection h with h
      injection h with hI hR
      subst hI
      subst hR
      rfl
  rw [if_neg hc] at h
  by_cases hc : opcode / 64 = 3 ∧ opcode / 16 % 4 = 1 ∧ opcode % 16 = 6
  · rw [if_pos hc] at h
    rcases hf2 : fetch_byte m { r with pc := r.pc + 1 } with e2 | p2 <;> rw [hf2] at h
    · rw [error_bind] at h
      exact Except.noConfusion h
    · obtain ⟨b2, r2⟩ := p2
      obtain ⟨hr2, hb2, hpc2, hrb2⟩ := fetch_byte_spec m _ b2 r2 hf2
      subst hr2
      rw [ok_bind] at h
      dsimp only at h
      rw [pure_eq_ok] at h
      injection h with h
      injection h with hI hR
      subst hI
      subst hR
      rfl
  rw [if_neg hc] at h
  by_cases hc : opcode / 64 = 3 ∧ opcode / 16 % 4 = 1 ∧ opcode % 16 = 14
  · rw [if_pos hc] at h
    rcases hf2 : fetch_byte m { r with pc := r.pc + 1 } with e2 | p2 <;> rw [hf2] at h
    · rw [error_bind] at h
      exact Except.noConfusion h
    · obtain ⟨b2, r2⟩ := p2
      obtain ⟨hr2, hb2, hpc2, hrb2⟩ := fetch_byte_spec m _ b2 r2 hf2
      subst hr2
      rw [ok_bind] at h
      dsimp only at h
      rw [pure_eq_ok] at h
      injection h with h
      injection h with hI hR
      subst hI
      subst hR
      rfl
  rw [if_neg hc] at h
  by_cases hc : opcode / 64 = 3 ∧ opcode / 16 % 4 = 2 ∧ opcode % 16 = 6
  · rw [if_pos hc] at h
    rcases hf2 : fetch_byte m { r with pc := r.pc + 1 } with e2 | p2 <;> rw [hf2] at h
    · rw [error_bind] at h
      exact Except.noConfusion h
    · obtain ⟨b2, r2⟩ := p2
      obtain ⟨hr2, hb2, hpc2, hrb2⟩ := fetch_byte_spec m _ b2 r2 hf2
      subst hr2
      rw [ok_bind] at h
      dsimp only at h
      rw [pure_eq_ok] at h
      injection h with h
      injection h with hI hR
      subst hI
      subst hR
      rfl
  rw [if_neg hc] at h
  by_cases hc : opcode / 64 = 3 ∧ opcode / 16 % 4 = 2 ∧ opcode % 16 = 14
  · rw [if_pos hc] at h
    rcases hf2 : fetch_byte m { r with pc := r.pc + 1 } with e2 | p2 <;> rw [hf2] at h
    · rw [error_bind] at h
      exact Except.noConfusion h
    · obtain ⟨b2, r2⟩ := p2
      obtain ⟨hr2, hb2, hpc2, hrb2⟩ := fetch_byte_spec m _ b2 r2 hf2
      subst hr2
      rw [ok_bind] at h
      dsimp only at h
      rw [pure_eq_ok] at h
      injection h with h
      injection h with hI hR
      subst hI
      subst hR
      rfl
  rw [if_neg hc] at h
  by_cases hc : opcode / 64 = 3 ∧ opcode / 16 % 4 = 3 ∧ opcode % 16 = 6
  · rw [if_pos hc] at h
    rcases hf2 : fetch_byte m { r with pc := r.pc + 1 } with e2 | p2 <;> rw [hf2] at h
    · rw [error_bind] at h
      exact Except.noConfusion h
    · obtain ⟨b2, r2⟩ := p2
      obtain ⟨hr2, hb2, hpc2, hrb2⟩ := fetch_byte_spec m _ b2 r2 hf2
      subst hr2
      rw [ok_bind] at h
      dsimp only at h
      rw [pure_eq_ok] at h
      injection h with h
      injection h with hI hR
      subst hI
      subst hR
      rfl
  rw [if_neg hc] at h
  by_cases hc : opcode / 64 = 3 ∧ opcode / 16 % 4 = 3 ∧ opcode % 16 = 14
  · rw [if_pos hc] at h
    rcases hf2 : fetch_byte m { r with pc := r.pc + 1 } with e2 | p2 <;> rw [hf2] at h
    · rw [error_bind] at h
      exact Except.noConfusion h
    · obtain ⟨b2, r2⟩ := p2
      obtain ⟨hr2, hb2, hpc2, hrb2⟩ := fetch_byte_spec m _ b2 r2 hf2
      subst hr2
      rw [ok_bind] at h
      dsimp only at h
      rw [pure_eq_ok] at h
      injection h with h
      injection h with hI hR
      subst hI
      subst hR
      rfl
  rw [if_neg hc] at h
  by_cases hc : opcode / 32 = 6 ∧ opcode % 8 = 0
  · rw [if_pos hc] at h
    rcases hcv : Cond.fromNat (opcode / 8 % 4) with ec | cv <;> rw [hcv] at h
    · rw [error_bind] at h
      exact Except.noConfusion h
    · rw [ok_bind] at h
      rw [pure_eq_ok] at h
      injection h with h
      injection h with hI hR
      subst hI
      subst hR
      rfl
  rw [if_neg hc] at h
  by_cases hc : opcode / 32 = 6 ∧ opcode / 8 % 4 = 1 ∧ opcode % 8 = 1
  · rw [if_pos hc] at h
    rw [pure_eq_ok] at h
    injection h with h
    injection h with hI hR
    subst hI
    subst hR
    rfl
  rw [if_neg hc] at h
  by_cases hc : opcode / 32 = 6 ∧ opcode / 8 % 4 = 3 ∧ opcode % 8 = 1
  · rw [if_pos hc] at h
    rw [pure_eq_ok] at h
    injection h with h
    injection h with hI hR
    subst hI
    subst hR
    rfl
  rw [if_neg hc] at h
  by_cases hc : opcode / 32 = 6 ∧ opcode % 8 = 2
  · rw [if_pos hc] at h
    rcases hcv : Cond.fromNat (opcode / 8 % 4) with ec | cv <;> rw [hcv] at h
    · rw [error_bind] at h
      exact Except.noConfusion h
    · rw [ok_bind] at h
      rcases hf2 : fetch_word m { r with pc := r.pc + 1 } with e2 | p2 <;> rw [hf2] at h
      · rw [error_bind] at h
        exact Except.noConfusion h
      · obtain ⟨w2, r2⟩ := p2
        have hr2 := fetch_word_spec m _ w2 r2 hf2
        subst hr2
        rw [ok_bind] at h
        dsimp only at h
        rw [pure_eq_ok] at h
        injection h with h
        injection h with hI hR
        subst hI
        subst hR
        rfl
  rw [if_neg hc] at h
  by_cases hc : opcode / 32 = 6 ∧ opcode / 8 % 4 = 0 ∧ opcode % 8 = 3
  · rw [if_pos hc] at h
    rcases hf2 : fetch_word m { r with pc := r.pc + 1 } with e2 | p2 <;> rw [hf2] at h
    · rw [error_bind] at h
      exact Except.noConfusion h
    · obtain ⟨w2, r2⟩ := p2
      have hr2 := fetch_word_spec m _ w2 r2 hf2
      subst hr2
      rw [ok_bind] at h
      dsimp only at h
      rw [pure_eq_ok] at h
      injection h with h
      injection h with hI hR
      subst hI
      subst hR
      rfl
  rw [if_neg hc] at h
  by_cases hc : opcode / 32 = 7 ∧ opcode / 8 % 4 = 1 ∧ opcode % 8 = 1
  · rw [if_pos hc] at h
    rw [pure_eq_ok] at h
    injection h with h
    injection h with hI hR
    subst hI
    subst hR
    rfl
  rw [if_neg hc] at h
  by_cases hc : opcode / 32 = 6 ∧ opcode % 8 = 4
  · rw [if_pos hc] at h
    rcases hcv : Cond.fromNat (opcode / 8 % 4) with ec | cv <;> rw [hcv] at h
    · rw [error_bind] at h
      exact Except.noConfusion h
    · rw [ok_bind] at h
      rcases hf2 : fetch_word m { r with pc := r.pc + 1 } with e2 | p2 <;> rw [hf2] at h
      · rw [error_bind] at h
        exact Except.noConfusion h
      · obtain ⟨w2, r2⟩ := p2
        have hr2 := fetch_word_spec m _ w2 r2 hf2
        subst hr2
        rw [ok_bind] at h
        dsimp only at h
        rw [pure_eq_ok] at h
        injection h with h
        injection h with hI hR
        subst hI
        subst hR
        rfl
  rw [if_neg hc] at h
  by_cases hc : opcode / 32 = 6 ∧ opcode / 8 % 4 = 1 ∧ opcode % 8 = 5
  · rw [if_pos hc] at h
    rcases hf2 : fetch_word m { r with pc := r.pc + 1 } with e2 | p2 <;> rw [hf2] at h
    · rw [error_bind] at h
      exact Except.noConfusion h
    · obtain ⟨w2, r2⟩ := p2
      have hr2 := fetch_word_spec m _ w2 r2 hf2
      subst hr2
      rw [ok_bind] at h
      dsimp only at h
      rw [pure_eq_ok] at h
      injection h with h
      injection h with hI hR
      subst hI
      subst hR
      rfl
  rw [if_neg hc] at h
  by_cases hc : opcode / 64 = 3 ∧ opcode % 8 = 7
  · rw [if_pos hc] at h
    rcases hcv : TGT3.fromNat (opcode / 8 % 8) with ec | cv <;> rw [hcv] at h
    · rw [error_bind] at h
      exact Except.noConfusion h
    · rw [ok_bind] at h
      rw [pure_eq_ok] at h
      injection h with h
      injection h with hI hR
      subst hI
      subst hR
      rfl
  rw [if_neg hc] at h
  by_cases hc : opcode / 64 = 3 ∧ opcode % 16 = 1
  · rw [if_pos hc] at h
    rcases hcv : R16STK.fromNat (opcode / 16 % 4) with ec | cv <;> rw [hcv] at h
    · rw [error_bind] at h
      exact Except.noConfusion h
    · rw [ok_bind] at h
      rw [pure_eq_ok] at h
      injection h with h
      injection h with hI hR
      subst hI
      subst hR
      rfl
  rw [if_neg hc] at h
  by_cases hc : opcode / 64 = 3 ∧ opcode % 16 = 5
  · rw [if_pos hc] at h
    rcases hcv : R16STK.fromNat (opcode / 16 % 4) with ec | cv <;> rw [hcv] at h
    · rw [error_bind] at h
      exact Except.noConfusion h
    · rw [ok_bind] at h
      rw [pure_eq_ok] at h
      injection h with h
      injection h with hI hR
      subst hI
      subst hR
      rfl
  rw [if_neg hc] at h
  by_cases hc : opcode / 64 = 3 ∧ opcode / 16 % 4 = 0 ∧ opcode % 16 = 11
  · rw [if_pos hc] at h
    rcases hf2 : fetch_byte m { r with pc := r.pc + 1 } with e2 | p2 <;> rw [hf2] at h
    · rw [error_bind] at h
      exact Except.noConfusion h
    · obtain ⟨b2, r2⟩ := p2
      obtain ⟨hr2, hb2, hpc2, hrb2⟩ := fetch_byte_spec m _ b2 r2 hf2
      subst hr2
      rw [ok_bind] at h
      dsimp only at h
      rcases hmp : map_prefixed_instruction b2 with e3 | i3 <;> rw [hmp] at h
      · rw [error_bind] at h
        exact Except.noConfusion h
      · rw [ok_bind] at h
        rw [pure_eq_ok] at h
        injection h with h
        injection h with hI hR
        subst hI
        subst hR
        rw [cb_len b2 i3 hmp]
  rw [if_neg hc] at h
  by_cases hc : opcode / 64 = 3 ∧ opcode / 16 % 4 = 2 ∧ opcode % 16 = 2
  · rw [if_pos hc] at h
    rw [pure_eq_ok] at h
    injection h with h
    injection h with hI hR
    subst hI
    subst hR
    rfl
  rw [if_neg hc] at h
  by_cases hc : opcode / 64 = 3 ∧ opcode / 16 % 4 = 2 ∧ opcode % 16 = 0
  · rw [if_pos hc] at h
    rcases hf2 : fetch_byte m { r with pc := r.pc + 1 } with e2 | p2 <;> rw [hf2] at h
    · rw [error_bind] at h
      exact Except.noConfusion h
    · obtain ⟨b2, r2⟩ := p2
      obtain ⟨hr2, hb2, hpc2, hrb2⟩ := fetch_byte_spec m _ b2 r2 hf2
      subst hr2
      rw [ok_bind] at h
      dsimp only at h
      rw [pure_eq_ok] at h
      injection h with h
      injection h with hI hR
      subst hI
      subst hR
      rfl
  rw [if_neg hc] at h
  by_cases hc : opcode / 64 = 3 ∧ opcode / 16 % 4 = 2 ∧ opcode % 16 = 10
  · rw [if_pos hc] at h
    rcases hf2 : fetch_word m { r with pc := r.pc + 1 } with e2 | p2 <;> rw [hf2] at h
    · rw [error_bind] at h
      exact Except.noConfusion h
    · obtain ⟨w2, r2⟩ := p2
      have hr2 := fetch_word_spec m _ w2 r2 hf2
      subst hr2
      rw [ok_bind] at h
      dsimp only at h
      rw [pure_eq_ok] at h
      injection h with h
      injection h with hI hR
      subst hI
      subst hR
      rfl
  rw [if_neg hc] at h
  by_cases hc : opcode / 64 = 3 ∧ opcode / 16 % 4 = 3 ∧ opcode % 16 = 2
  · rw [if_pos hc] at h
    rw [pure_eq_ok] at h
    injection h with h
    injection h with hI hR
    subst hI
    subst hR
    rfl
  rw [if_neg hc] at h
  by_cases hc : opcode / 64 = 3 ∧ opcode / 16 % 4 = 3 ∧ opcode % 16 = 0
  · rw [if_pos hc] at h
    rcases hf2 : fetch_byte m { r with pc := r.pc + 1 } with e2 | p2 <;> rw [hf2] at h
    · rw [error_bind] at h
      exact Except.noConfusion h
    · obtain ⟨b2, r2⟩ := p2
      obtain ⟨hr2, hb2, hpc2, hrb2⟩ := fetch_byte_spec m _ b2 r2 hf2
      subst hr2
      rw [ok_bind] at h
      dsimp only at h
      rw [pure_eq_ok] at h
      injection h with h
      injection h with hI hR
      subst hI
      subst hR
      rfl
  rw [if_neg hc] at h
  by_cases hc : opcode / 64 = 3 ∧ opcode / 16 % 4 = 3 ∧ opcode % 16 = 10
  · rw [if_pos hc] at h
    rcases hf2 : fetch_word m { r with pc := r.pc + 1 } with e2 | p2 <;> rw [hf2] at h
    · rw [error_bind] at h
      exact Except.noConfusion h
    · obtain ⟨w2, r2⟩ := p2
      have hr2 := fetch_word_spec m _ w2 r2 hf2
      subst hr2
      rw [ok_bind] at h
      dsimp only at h
      rw [pure_eq_ok] at h
      injection h with h
      injection h with hI hR
      subst hI
      subst hR
      rfl
  rw [if_neg hc] at h
  by_cases hc : opcode / 64 = 3 ∧ opcode / 16 % 4 = 2 ∧ opcode % 16 = 8
  · rw [if_pos hc] at h
    rcases hf2 : fetch_byte m { r with pc := r.pc + 1 } with e2 | p2 <;> rw [hf2] at h
    · rw [error_bind] at h
      exact Except.noConfusion h
    · obtain ⟨b2, r2⟩ := p2
      obtain ⟨hr2, hb2, hpc2, hrb2⟩ := fetch_byte_spec m _ b2 r2 hf2
      subst hr2
      rw [ok_bind] at h
      dsimp only at h
      rw [pure_eq_ok] at h
      injection h with h
      injection h with hI hR
      subst hI
      subst hR
      rfl
  rw [if_neg hc] at h
  by_cases hc : opcode / 64 = 3 ∧ opcode / 16 % 4 = 3 ∧ opcode % 16 = 8
  · rw [if_pos hc] at h
    rcases hf2 : fetch_byte m { r with pc := r.pc + 1 } with e2 | p2 <;> rw [hf2] at h
    · rw [error_bind] at h
      exact Except.noConfusion h
    · obtain ⟨b2, r2⟩ := p2
      obtain ⟨hr2, hb2, hpc2, hrb2⟩ := fetch_byte_spec m _ b2 r2 hf2
      subst hr2
      rw [ok_bind] at h
      dsimp only at h
      rw [pure_eq_ok] at h
      injection h with h
      injection h with hI hR
      subst hI
      subst hR
      rfl
  rw [if_neg hc] at h
  by_cases hc : opcode / 64 = 3 ∧ opcode / 16 % 4 = 3 ∧ opcode % 16 = 9
  · rw [if_pos hc] at h
    rw [pure_eq_ok] at h
    injection h with h
    injection h with hI hR
    subst hI
    subst hR
    rfl
  rw [if_neg hc] at h
  by_cases hc : opcode / 64 = 3 ∧ opcode / 16 % 4 = 3 ∧ opcode % 16 = 3
  · rw [if_pos hc] at h
    rw [pure_eq_ok] at h
    injection h with h
    injection h with hI hR
    subst hI
    subst hR
    rfl
  rw [if_neg hc] at h
  by_cases hc : opcode / 64 = 3 ∧ opcode / 16 % 4 = 3 ∧ opcode % 16 = 11
  · rw [if_pos hc] at h
    rw [pure_eq_ok] at h
    injection h with h
    injection h with hI hR
    subst hI
    subst hR
    rfl
  rw [if_neg hc] at h
  exact Except.noConfusion h

/-- C7 witness: fetching `LD BC,0x1234` (bytes 01 34 12) from PC = 0
advances PC by 3 = 1 + 2 immediate bytes. -/
theorem c7_witness :
    fetch_instruction
        { Memory.new with rom_00 := fun a => if a = 0 then 1 else if a = 1 then 0x34 else 0x12 }
        (Registers.new 0 0 0 0 0 0)
      = .ok (.LdR16Imm16 .BC 0x1234, Registers.new 0 0 0 0 0 3) ∧
    (Registers.new 0 0 0 0 0 3).pc
      = (Registers.new 0 0 0 0 0 0).pc + instrLength (.LdR16Imm16 .BC 0x1234) :=
  ⟨rfl, c7_pc_advance
    { Memory.new with rom_00 := fun a => if a = 0 then 1 else if a = 1 then 0x34 else 0x12 }
    (Registers.new 0 0 0 0 0 0) (.LdR16Imm16 .BC 0x1234) (Registers.new 0 0 0 0 0 3) rfl⟩

/-- C8: decode priority in block 1.  Given that the opcode byte at PC lies
in `[0x40, 0x7F]` and the fetch succeeds: byte `0x76` decodes to `HALT` and
not to any `LD r8,r8`; every other byte decodes to the LD form selected by
its `(aaa, bbb)` fields — `LD (HL),r8` when `aaa = 6`, `LD r8,(HL)` when
`bbb = 6`, and `LD r8,r8` otherwise. -/
theorem c8_block1_priority (m : Memory) (r : Registers) (opcode : Nat)
    (inst : Instruction) (r' : Registers)
    (hop : m.read_byte r.pc = .ok opcode)
    (hlo : 0x40 ≤ opcode) (hhi : opcode ≤ 0x7F)
    (h : fetch_instruction m r = .ok (inst, r')) :
    (opcode = 0x76 → inst = .Halt ∧ ∀ t s : R8, inst ≠ .LdR8R8 t s) ∧
    (opcode ≠ 0x76 →
      (opcode / 8 % 8 = 6 →
        ∃ reg, R8.fromNat (opcode % 8) = .ok reg ∧ inst = .LdMemHlR8 reg) ∧
      (opcode % 8 = 6 → opcode / 8 % 8 ≠ 6 →
        ∃ reg, R8.fromNat (opcode / 8 % 8) = .ok reg ∧ inst = .LdR8MemHl reg) ∧
      (opcode / 8 % 8 ≠ 6 → opcode % 8 ≠ 6 →
        ∃ t s, R8.fromNat (opcode / 8 % 8) = .ok t ∧ R8.fromNat (opcode % 8) = .ok s ∧
          inst = .LdR8R8 t s)) := by
  delta fetch_instruction at h
  rcases hfb : fetch_byte m r with e | p <;> rw [hfb] at h
  · rw [error_bind] at h
    exact Except.noConfusion h
  obtain ⟨b0, r1⟩ := p
  rw [ok_bind] at h
  obtain ⟨hr1, hblt, hpcb, hrb⟩ := fetch_byte_spec m r b0 r1 hfb
  subst hr1
  have hbo : opcode = b0 := by
    rw [hrb] at hop
    injection hop with q
    exact q.symm
  subst hbo
  dsimp only at h
  rw [if_neg (show ¬(opcode / 64 = 0 ∧ opcode / 16 % 4 = 0 ∧ opcode % 16 = 0) by omega)] at h
  rw [if_neg (show ¬(opcode / 64 = 0 ∧ opcode % 16 = 1) by omega)] at h
  rw [if_neg (show ¬(opcode / 64 = 0 ∧ opcode % 16 = 2) by omega)] at h
  rw [if_neg (show ¬(opcode / 64 = 0 ∧ opcode % 16 = 10) by omega)] at h
  rw [if_neg (show ¬(opcode / 64 = 0 ∧ opcode / 16 % 4 = 0 ∧ opcode % 16 = 8) by omega)] at h
  rw [if_neg (show ¬(opcode / 64 = 0 ∧ opcode % 16 = 3) by omega)] at h
  rw [if_neg (show ¬(opcode / 64 = 0 ∧ opcode % 16 = 11) by omega)] at h
  rw [if_neg (show ¬(opcode / 64 = 0 ∧ opcode % 16 = 9) by omega)] at h
  rw [if_neg (show ¬(opcode / 64 = 0 ∧ opcode / 8 % 8 = 6 ∧ opcode % 8 = 4) by omega)] at h
  rw [if_neg (show ¬(opcode / 64 = 0 ∧ opcode % 8 = 4) by omega)] at h
  rw [if_neg (show ¬(opcode / 64 = 0 ∧ opcode / 8 % 8 = 6 ∧ opcode % 8 = 5) by omega)] at h
  rw [if_neg (show ¬(opcode / 64 = 0 ∧ opcode % 8 = 5) by omega)] at h
  rw [if_neg (show ¬(opcode / 64 = 0 ∧ opcode / 8 % 8 = 6 ∧ opcode % 8 = 6) by omega)] at h
  rw [if_neg (show ¬(opcode / 64 = 0 ∧ opcode % 8 = 6) by omega)] at h
  rw [if_neg (show ¬(opcode / 64 = 0 ∧ opcode / 16 % 4 = 0 ∧ opcode % 16 = 7) by omega)] at h
  rw [if_neg (show ¬(opcode / 64 = 0 ∧ opcode / 16 % 4 = 0 ∧ opcode % 16 = 15) by omega)] at h
  rw [if_neg (show ¬(opcode / 64 = 0 ∧ opcode / 16 % 4 = 1 ∧ opcode % 16 = 7) by omega)] at h
  rw [if_neg (show ¬(opcode / 64 = 0 ∧ opcode / 16 % 4 = 1 ∧ opcode % 16 = 15) by omega)] at h
  rw [if_neg (show ¬(opcode / 64 = 0 ∧ opcode / 16 % 4 = 2 ∧ opcode % 16 = 7) by omega)] at h
  rw [if_neg (show ¬(opcode / 64 = 0 ∧ opcode / 16 % 4 = 2 ∧ opcode % 16 = 15) by omega)] at h
  rw [if_neg (show ¬(opcode / 64 = 0 ∧ opcode / 16 % 4 = 3 ∧ opcode % 16 = 7) by omega)] at h
  rw [if_neg (show ¬(opcode / 64 = 0 ∧ opcode / 16 % 4 = 3 ∧ opcode % 16 = 15) by omega)] at h
  rw [if_neg (show ¬(opcode / 32 = 0 ∧ opcode / 8 % 4 = 3 ∧ opcode % 8 = 0) by omega)] at h
  rw [if_neg (show ¬(opcode / 32 = 1 ∧ opcode % 8 = 0) by omega)] at h
  rw [if_neg (show ¬(opcode / 64 = 0 ∧ opcode / 16 % 4 = 1 ∧ opcode % 16 = 0) by omega)] at h
  by_cases hhalt : opcode / 64 = 1 ∧ opcode / 8 % 8 = 6 ∧ opcode % 8 = 6
  · rw [if_pos hhalt, pure_eq_ok] at h
    injection h with h
    injection h with hI hR
    subst hI
    exact ⟨fun _ => ⟨rfl, fun t s hne => Instruction.noConfusion hne⟩,
      fun hne => absurd (show opcode = 0x76 by omega) hne⟩
  rw [if_neg hhalt] at h
  by_cases hmhl : opcode / 64 = 1 ∧ opcode / 8 % 8 = 6
  · rw [if_pos hmhl] at h
    rcases hcv : R8.fromNat (opcode % 8) with ec | cv <;> rw [hcv] at h
    · rw [error_bind] at h
      exact Except.noConfusion h
    · rw [ok_bind, pure_eq_ok] at h
      injection h with h
      injection h with hI hR
      subst hI
      refine ⟨fun h76 => absurd (show opcode / 64 = 1 ∧ opcode / 8 % 8 = 6 ∧ opcode % 8 = 6 by omega) hhalt,
        fun hne => ⟨fun _ => ⟨cv, rfl, rfl⟩,
          fun _ hne6 => absurd hmhl.2 hne6,
          fun ha6 _ => absurd hmhl.2 ha6⟩⟩
  rw [if_neg hmhl] at h
  by_cases hrhl : opcode / 64 = 1 ∧ opcode % 8 = 6
  · rw [if_pos hrhl] at h
    rcases hcv : R8.fromNat (opcode / 8 % 8) with ec | cv <;> rw [hcv] at h
    · rw [error_bind] at h
      exact Except.noConfusion h
    · rw [ok_bind, pure_eq_ok] at h
      injection h with h
      injection h with hI hR
      subst hI
      refine ⟨fun h76 => absurd (show opcode / 64 = 1 ∧ opcode / 8 % 8 = 6 by omega) hmhl,
        fun hne => ⟨fun ha => absurd (show opcode / 64 = 1 ∧ opcode / 8 % 8 = 6 from ⟨hrhl.1, ha⟩) hmhl,
          fun _ _ => ⟨cv, rfl, rfl⟩,
          fun _ hb => absurd hrhl.2 hb⟩⟩
  rw [if_neg hrhl] at h
  by_cases hr8 : opcode / 64 = 1
  · rw [if_pos hr8] at h
    rcases hcv : R8.fromNat (opcode / 8 % 8) with ec | cv <;> rw [hcv] at h
    · rw [error_bind] at h
      exact Except.noConfusion h
    · rw [ok_bind] at h
      rcases hcv2 : R8.fromNat (opcode % 8) with ec2 | cv2 <;> rw [hcv2] at h
      · rw [error_bind] at h
        exact Except.noConfusion h
      · rw [ok_bind, pure_eq_ok] at h
        injection h with h
        injection h with hI hR
        subst hI
        refine ⟨fun h76 => absurd (show opcode / 64 = 1 ∧ opcode / 8 % 8 = 6 ∧ opcode % 8 = 6 by omega) hhalt,
          fun hne => ⟨fun ha => absurd (show opcode / 64 = 1 ∧ opcode / 8 % 8 = 6 from ⟨hr8, ha⟩) hmhl,
            fun hb _ => absurd (show opcode / 64 = 1 ∧ opcode % 8 = 6 from ⟨hr8, hb⟩) hrhl,
            fun _ _ => ⟨cv, cv2, rfl, rfl, rfl⟩⟩⟩
  · exact absurd (show opcode / 64 = 1 by omega) hr8

/-- C8 witness: byte 0x76 at PC = 0 decodes to HALT; byte 0x41 decodes to
`LD B,C`. -/
theorem c8_witness :
    (({ Memory.new with rom_00 := fun _ => 0x76 } : Memory).read_byte 0 = .ok 0x76 ∧
      fetch_instruction ({ Memory.new with rom_00 := fun _ => 0x76 }) (Registers.new 0 0 0 0 0 0)
        = .ok (.Halt, Registers.new 0 0 0 0 0 1)) ∧
    Instruction.Halt = .Halt ∧ ∀ t s : R8, Instruction.Halt ≠ .LdR8R8 t s :=
  ⟨⟨rfl, rfl⟩,
    (c8_block1_priority ({ Memory.new with rom_00 := fun _ => 0x76 })
      (Registers.new 0 0 0 0 0 0) 0x76 .Halt (Registers.new 0 0 0 0 0 1)
      rfl (by decide) (by decide) rfl).1 rfl⟩

/-- C1: the flag bits of `F`.  The spec says the flags live in the upper
nibble of `F` (Z = bit 7, N = bit 6, H = bit 5, C = bit 4) and that the lower
4 bits of `F` read as 0 in every state reachable through the flag writes.
Evaluating the register file's own `write_flag`/`read_flag`/`read_8` on the
all-zero power-on state refutes this: after `write_flag Z 1`, `F` reads as
`0x01` — Z landed in bit 0, bit 7 of `F` is 0, and the lower nibble of `F`
is 1, not 0.  (`read_flag`/`write_flag` address bits 0–3 of `af`, i.e. the
low nibble of `F`.) -/
theorem c1_flags_low_nibble_eval :
    ((Registers.new 0 0 0 0 0 0).write_flag .Z 1).read_flag .Z = 1 ∧
    ((Registers.new 0 0 0 0 0 0).write_flag .Z 1).read_8 .F = 1 ∧
    get_bit_u8 (((Registers.new 0 0 0 0 0 0).write_flag .Z 1).read_8 .F) 7 = 0 ∧
    ((Registers.new 0 0 0 0 0 0).write_flag .Z 1).read_8 .F % 16 = 1 := by
  decide

/-- C2: `ADD SP,e8` flag computation at SP = 0x000F, e8 = 0x01.  The spec
says H is the carry out of bit 3 of the 8-bit addition of SP's low byte and
e8 (here `(0xF + 0x1) > 0xF`, so H should be 1, as `check_half_carry_add_u8`
confirms), but the executed instruction computes H from the carry out of
bit 7 of the low-byte addition (`check_half_carry_add_u16_bit7`) and
produces H = 0; C it takes from the 16-bit signed-overflow flag, and for
non-positive offsets it zeroes H and C outright. -/
theorem c2_addsp_flags_eval :
    (((Instruction.AddSpImm8 1).execute (Registers.new 0 0 0 0 0x0F 0) Memory.new).map
      fun out => (out.1, out.2.1.sp, out.2.1.read_flag .H, out.2.1.read_flag .C))
      = .ok (4, 0x10, 0, 0) ∧
    check_half_carry_add_u8 0x0F 0x01 = true ∧
    (((Instruction.LdHlSpImm8 1).execute (Registers.new 0 0 0 0 0x0F 0) Memory.new).map
      fun out => (out.1, out.2.1.hl, out.2.1.read_flag .H, out.2.1.read_flag .C))
      = .ok (3, 0x10, 0, 0) := by
  refine ⟨by decide, by decide, by decide⟩

/-- C3: `(HL+)` / `(HL-)` addressing at HL = 0xC000.  The spec says
`LD (HL+),A` increments HL and `LD A,(HL-)` decrements it after the memory
access, but the executed instructions leave HL at 0xC000 in both cases (the
store/load itself succeeds: the written byte is visible at 0xC000). -/
theorem c3_hl_autoinc_missing_eval :
    (((Instruction.LdR16MemA .Hli).execute (Registers.new 0x1200 0 0 0xC000 0 0) Memory.new).map
      fun out => (out.1, out.2.1.hl)) = .ok (2, 0xC000) ∧
    (((Instruction.LdR16MemA .Hli).execute (Registers.new 0x1200 0 0 0xC000 0 0) Memory.new).bind
      fun out => out.2.2.read_byte 0xC000) = .ok 0x12 ∧
    (((Instruction.LdAR16Mem .Hld).execute (Registers.new 0x1200 0 0 0xC000 0 0) Memory.new).map
      fun out => (out.1, out.2.1.hl)) = .ok (2, 0xC000) := by
  refine ⟨by decide, by decide, by decide⟩

/-- C4: SP/PC boundary arithmetic.  The spec says SP and PC wrap modulo
65536 on every increment/decrement, so fetching at PC = 0xFFFF should leave
PC = 0 and stack pushes/pops at the boundary should wrap SP instead of
faulting.  The fetch and stack helpers use Rust's plain `u16` `+`/`-`
(an overflow panic under `debug_assertions`, modelled as
`Fault.overflowPanic`), so all three boundary cases fault instead of
wrapping; only `INC r16`/`DEC r16`/`JR` use the explicit wrapping
operations. -/
theorem c4_no_wrap_at_boundary_eval :
    fetch_byte Memory.new (Registers.new 0 0 0 0 0 0xFFFF) = .error .overflowPanic ∧
    ((stack_push_16 (Registers.new 0 0 0 0 1 0) Memory.new 0x1234).map fun p => p.1)
      = .error .overflowPanic ∧
    stack_pop_16 (Registers.new 0 0 0 0 0xFFFE 0) Memory.new = .error .overflowPanic := by
  refine ⟨by decide, by decide, by decide⟩

end GB
